import Mathlib

/-!
Verification development for the XzalgoChain 320-bit hash function.

The C sources are shallowly embedded: 64-bit machine words are `Nat` values
taken modulo `M = 2 ^ 64` (every wrapping addition and multiplication is
followed by `% M`; bitwise operations on values `< M` stay `< M`).  Byte
buffers are `List Nat`, hash states are five-field structures, and the
4-lane SIMD vectors of the scalar / AVX2 / NEON back-ends are four-field
structures.  Definition names follow the C symbols (`process_block`,
`generate_salt`, `little_box_execute_scalar`, `mullo64`, ...).
-/

set_option maxRecDepth 10000

/-- Word modulus: all arithmetic in the C sources is on `uint64_t`. -/
def M : Nat := 18446744073709551616

/-- Model of `rotl64` from utils.h: rotate a 64-bit word left.  The C code
masks the count with `& 63` first; `(64 - n) % 64` reproduces the fallback
`(64u - n) & 63u` (and the builtin rotate agrees for every count). -/
def rotl64 (x n : Nat) : Nat :=
  let r := n % 64
  ((x <<< r) ||| (x >>> ((64 - r) % 64))) % M

/-- Model of `rotr64` from utils.h: rotate a 64-bit word right. -/
def rotr64 (x n : Nat) : Nat :=
  let r := n % 64
  ((x >>> r) ||| (x <<< ((64 - r) % 64))) % M

/-- The 128-entry `ROUND_CONSTANTS` table from config.h, in order (the 24
entries after the SHA-512 block are written in decimal; they are the Keccak
round constants 0x0000000000000001 .. 0x8000000080008008 followed by
0x6A09E667F2BDC948 and 0x132435465768798A). -/
def ROUND_CONSTANTS : List Nat := [
  0x428A2F98D728AE22, 0x7137449123EF65CD, 0xB5C0FBCFEC4D3B2F, 0xE9B5DBA58189DBBC,
  0x3956C25BF348B538, 0x59F111F1B605D019, 0x923F82A4AF194F9B, 0xAB1C5ED5DA6D8118,
  0xD807AA98A3030242, 0x12835B0145706FBE, 0x243185BE4EE4B28C, 0x550C7DC3D5FFB4E2,
  0x72BE5D74F27B896F, 0x80DEB1FE3B1696B1, 0x9BDC06A725C71235, 0xC19BF174CF692694,
  0xE49B69C19EF14AD2, 0xEFBE4786384F25E3, 0x0FC19DC68B8CD5B5, 0x240CA1CC77AC9C65,
  0x2DE92C6F592B0275, 0x4A7484AA6EA6E483, 0x5CB0A9DCBD41FBD4, 0x76F988DA831153B5,
  0x983E5152EE66DFAB, 0xA831C66D2DB43210, 0xB00327C898FB213F, 0xBF597FC7BEEF0EE4,
  0xC6E00BF33DA88FC2, 0xD5A79147930AA725, 0x06CA6351E003826F, 0x142929670A0E6E70,
  0x27B70A8546D22FFC, 0x2E1B21385C26C926, 0x4D2C6DFC5AC42AED, 0x53380D139D95B3DF,
  0x650A73548BAF63DE, 0x766A0ABB3C77B2A8, 0x81C2C92E47EDAEE6, 0x92722C851482353B,
  0xA2BFE8A14CF10364, 0xA81A664BBC423001, 0xC24B8B70D0F89791, 0xC76C51A30654BE30,
  0xD192E819D6EF5218, 0xD69906245565A910, 0xF40E35855771202A, 0x106AA07032BBD1B8,
  0x19A4C116B8D2D0C8, 0x1E376C085141AB53, 0x2748774CDF8EEB99, 0x34B0BCB5E19B48A8,
  0x391C0CB3C5C95A63, 0x4ED8AA4AE3418ACB, 0x5B9CCA4F7763E373, 0x682E6FF3D6B2B8A3,
  0x748F82EE5DEFB2FC, 0x78A5636F43172F60, 0x84C87814A1F0AB72, 0x8CC702081A6439EC,
  0x90BEFFFA23631E28, 0xA4506CEBDE82BDE9, 0xBEF9A3F7B2C67915, 0xC67178F2E372532B,
  1, 32898,
  9223372036854808714, 9223372039002292224,
  32907, 2147483649,
  9223372039002292353, 9223372036854808585,
  138, 136,
  2147516425, 2147483658,
  2147516555, 9223372036854775947,
  9223372036854808713, 9223372036854808579,
  9223372036854808578, 9223372036854775936,
  32778, 9223372039002259466,
  9223372036854808704, 9223372039002292232,
  7640891576939301192, 1379285962112661898,
  0xC0D1E2F3A4B59687, 0x78695A4B3C2D1E0F, 0xA96F30BC163138AA, 0xCBF29CE484222325,
  0x6C7967656E657261, 0x646F72616E646F6D, 0xCA273ECEEA26619C, 0xF4846468E8DF0C0B,
  0x18695A087A5C0593, 0x23B41638005C0F2D, 0x2D491CBFB1D3A637, 0x324B42C185E58F9E,
  0x3A1010A7B8D67679, 0x3F73C4AF18518865, 0x5A0DEEEFF85E0B80, 0x5E9D7A75E2F1B5CB,
  0x667F9CFB7B3C9D3F, 0x6C78E7A5948A265C, 0x6C6E7E9A7C5D3A1F, 0x7A0D6C2D0B8F5E3A,
  0x7B0C9E5A6D3F1D8C, 0x8A0F5E3C7D1B9A6F, 0x8C2D5E3F7A1B9C6D, 0x9A0B8C7D6E5F4A3B,
  0xE38DEE4DB0FB0E4E, 0xB1C2D3E4F5061728, 0xC1D2E3F405162738, 0xD1E2F30415263748,
  0xE1F2031425364758, 0xF102132435465768, 0xE58001F9E5CFFA7E, 0xD1AA379F9C4B9809,
  0x993A2F8B88C1B63F, 0x579A01155E6D4196, 0xBB0FC70B1266B3F1, 0xDE509C2F03B01495,
  0x8859485125BC297C, 0x102B36560F6E68E6, 0xE2D0C0A896B87C6E, 0x4F5E6A7B8C9DAFB1]

/-- The `RC(i)` access macro: `ROUND_CONSTANTS[(i) & (ROUND_CONSTANTS_SIZE-1)]`
with `ROUND_CONSTANTS_SIZE = 128`. -/
def rc (i : Nat) : Nat := ROUND_CONSTANTS.getD (i % 128) 0

/-- Model of `gamma_mix` from algorithm.h. `(z & ~x)` is modelled by
complementing `x` against the all-ones 64-bit word. -/
def gamma_mix (x y z round : Nat) : Nat :=
  let r0 := x ^^^ y ^^^ z
  let r1 := (r0 + (rotl64 x 13 ^^^ rotr64 y 7 ^^^ rotl64 z 29)) % M
  let r2 := r1 ^^^ ((x &&& y) ||| (z &&& (x ^^^ (M - 1))))
  let r3 := (r2 + round) % M
  let r4 := rotr64 r3 17 ^^^ rotl64 r3 23
  let r5 := r4 ^^^ (((r4 <<< 19) % M) ||| (r4 >>> 45))
  (r5 + ((x * 0x8000000080008009) % M ^^^ (y * 0x8000000000008081) % M)) % M

/-- Model of `extra_mix` from XzalgoChain.h. -/
def extra_mix (x : Nat) : Nat :=
  let x1 := x ^^^ (x >>> 27)
  let x2 := (x1 * 0x9E3779B97F4A7C15) % M
  let x3 := x2 ^^^ (x2 >>> 31)
  let x4 := (x3 * 0xBF58476D1CE4E5B9) % M
  let x5 := x4 ^^^ (x4 >>> 29)
  (x5 + rotl64 x5 41) % M

/-- Five-word hash state `h[5]` of `XzalgoChain_CTX`. -/
structure H5 where
  h0 : Nat
  h1 : Nat
  h2 : Nat
  h3 : Nat
  h4 : Nat
deriving DecidableEq, Repr

/-- Model of `process_block` from XzalgoChain.h: the five loop iterations are
unrolled; iteration `i` reads `h[(i+1)%5]` and `h[(i+4)%5]` from the
partially-updated state and writes `h[i]`. -/
def process_block (h : H5) (block : List Nat) : H5 :=
  let b (i : Nat) : Nat := block.getD i 0
  let step (a bw cw dw hn hp : Nat) : Nat :=
    let a1 := rotl64 ((a + (bw ^^^ 0x6A09E667BB67AE85)) % M) 13
    let a2 := rotl64 (a1 ^^^ ((cw + 0x3C6EF372A54FF53A) % M)) 29
    let a3 := rotl64 ((a2 + (dw ^^^ 0x510E527F9B05688C)) % M) 37
    let a4 := a3 ^^^ hn
    let a5 := rotl64 ((a4 + hp) % M) 17
    let a6 := a5 ^^^ (a5 >>> 32)
    let a7 := a6 ^^^ ((a6 <<< 21) % M)
    let a8 := (a7 * 0x1F83D9AB5BE0CD19) % M
    let a9 := a8 ^^^ (a8 >>> 29)
    a9 ^^^ ((a9 <<< 17) % M)
  let n0 := step h.h0 (b 0) (b 5) (b 10) h.h1 h.h4
  let n1 := step h.h1 (b 1) (b 6) (b 11) h.h2 n0
  let n2 := step h.h2 (b 2) (b 7) (b 12) h.h3 n1
  let n3 := step h.h3 (b 3) (b 8) (b 13) h.h4 n2
  let n4 := step h.h4 (b 4) (b 9) (b 14) n0 n3
  ⟨n0, n1, n2, n3, n4⟩

/-- The 32-word seed table local to `generate_salt`, with the first five
entries already XOR-ed with the input state (the C code copies the table and
then runs `s[i] ^= input[i]` for `i < 5`). -/
def salt_seed_mixed (h : H5) : List Nat := [
  0x6a09e667f3bcc908 ^^^ h.h0, 0xbb67ae8584caa73b ^^^ h.h1,
  0x3c6ef372fe94f82b ^^^ h.h2, 0xa54ff53a5f1d36f1 ^^^ h.h3,
  0x510e527fade682d1 ^^^ h.h4, 0x9b05688c2b3e6c1f,
  0x1f83d9abfb41bd6b, 0x5be0cd19137e2179,
  0xcbbb9d5dc1059ed8, 0x629a292a367cd507,
  0x9159015a3070dd17, 0x152fecd8f70e5939,
  0x67332667ffc00b31, 0x8eb44a8768581511,
  0xdb0c2e0d64f98fa7, 0x47b5481dbefa4fa4,
  0x243f6a8885a308d3, 0x13198a2e03707344,
  0xa4093822299f31d0, 0x082efa98ec4e6c89,
  0x452821e638d01377, 0xbe5466cf34e90c6c,
  0xc0ac29b7c97c50dd, 0x3f84d5b5b5470917,
  0x8367E295D4C1B8A3, 0xF4E6D2C5B1A79860,
  0x2B5D7C9F8E4A3617, 0xC8D4E2F6B9A31750,
  0x7E3F9A2C5D8B6419, 0xA6D2F8C4E1B79530,
  0x4B7F9E2D5C8A6318, 0xD5F2E7C4B9A16830]

/-- One inner-loop step of `generate_salt`: `s[j] ^= rotl64(s[j], (j*7+round*3)%64)
^ rotr64(s[(j+3)&7], (j*5+round*2)%64); s[j] += counter` (in place, so later
`j` read partially-updated entries). -/
def salt_step (round counter : Nat) (s : List Nat) (j : Nat) : List Nat :=
  let v := s.getD j 0
  let w := s.getD ((j + 3) % 8) 0
  let v1 := v ^^^ (rotl64 v ((j * 7 + round * 3) % 64) ^^^ rotr64 w ((j * 5 + round * 2) % 64))
  s.set j ((v1 + counter) % M)

/-- Model of `generate_salt` from XzalgoChain.h: seven outer rounds over the
32-word seed, counter incremented by `0x7C5F8E4D3B2A6917` (wrapping) after
each round, then reduction to five salt words. -/
def generate_salt (h : H5) : List Nat :=
  let rounds := (List.range 7).foldl
    (fun (p : List Nat × Nat) round =>
      ((List.range 32).foldl (salt_step round p.2) p.1,
       (p.2 + 0x7C5F8E4D3B2A6917) % M))
    (salt_seed_mixed h, 0)
  let s := rounds.1
  (List.range 5).map (fun i =>
    let v0 := s.getD i 0 ^^^ s.getD ((i + 3) % 8) 0
    let v1 := v0 ^^^ (v0 >>> 31)
    let v2 := (v1 * 0x3A8F7E6D5C4B2918) % M
    let v3 := v2 ^^^ (v2 >>> 29)
    (v3 * 0x276D9C5F8E3B41A2) % M)

/-- A 256-bit vector of four 64-bit lanes (`vec256_t` in the scalar back-end,
`__m256i` in AVX2, the `lo`/`hi` pair in NEON).  Lane 0 is the lowest lane. -/
structure Vec4 where
  x0 : Nat
  x1 : Nat
  x2 : Nat
  x3 : Nat
deriving DecidableEq, Repr

/-- Select lane `k & 3` of a vector (helper of the permute operations). -/
def Vec4.sel (v : Vec4) (k : Nat) : Nat :=
  match k % 4 with
  | 0 => v.x0
  | 1 => v.x1
  | 2 => v.x2
  | _ => v.x3

/-- Model of `vec256_set1` / `_mm256_set1_epi64x` / `n256_set1`. -/
def vec4_set1 (x : Nat) : Vec4 := ⟨x, x, x, x⟩

/-- Lane-wise wrapping addition (`vec256_add` / `_mm256_add_epi64` / `n256_add`). -/
def vec4_add (a b : Vec4) : Vec4 :=
  ⟨(a.x0 + b.x0) % M, (a.x1 + b.x1) % M, (a.x2 + b.x2) % M, (a.x3 + b.x3) % M⟩

/-- Lane-wise XOR (`vec256_xor` / `_mm256_xor_si256` / `n256_xor`). -/
def vec4_xor (a b : Vec4) : Vec4 :=
  ⟨a.x0 ^^^ b.x0, a.x1 ^^^ b.x1, a.x2 ^^^ b.x2, a.x3 ^^^ b.x3⟩

/-- Lane-wise left rotation (`vec256_rotl` / `rotl64x4` / `n256_rotl`). -/
def vec4_rotl (v : Vec4) (r : Nat) : Vec4 :=
  ⟨rotl64 v.x0 r, rotl64 v.x1 r, rotl64 v.x2 r, rotl64 v.x3 r⟩

/-- Lane-wise right rotation (`vec256_rotr` / `rotr64x4` / `n256_rotr`). -/
def vec4_rotr (v : Vec4) (r : Nat) : Vec4 :=
  ⟨rotr64 v.x0 r, rotr64 v.x1 r, rotr64 v.x2 r, rotr64 v.x3 r⟩

/-- Lane permutation (`vec256_permute` / `_mm256_permute4x64_epi64` /
`n256_permute`): destination lane `d` takes source lane `(imm >> 2d) & 3`. -/
def vec4_permute (v : Vec4) (imm : Nat) : Vec4 :=
  ⟨v.sel imm, v.sel (imm >>> 2), v.sel (imm >>> 4), v.sel (imm >>> 6)⟩

/-- Lane-wise wrapping multiplication by a constant (`vec256_mul_const`,
and `n256_mul64` which multiplies each stored lane exactly). -/
def vec4_mul_const (v : Vec4) (c : Nat) : Vec4 :=
  ⟨(v.x0 * c) % M, (v.x1 * c) % M, (v.x2 * c) % M, (v.x3 * c) % M⟩

/-- Model of `mix_lanes_vector` from the scalar back-end: permute by `0x4E`,
permute that by `0xB1`, XOR the two, then XOR with its own 17-rotation. -/
def mix_lanes_vector (v : Vec4) : Vec4 :=
  let p0 := vec4_permute v 0x4E
  let p1 := vec4_permute p0 0xB1
  let x := vec4_xor p0 p1
  vec4_xor x (vec4_rotl x 17)

/-- Model of `arx_mix_vector` from the scalar back-end. -/
def arx_mix_vector (v salt rcv : Vec4) (r1 r2 : Nat) : Vec4 :=
  let v1 := vec4_add v salt
  let v2 := vec4_xor v1 rcv
  let v3 := vec4_add v2 (vec4_rotl v2 r1)
  let v4 := vec4_xor v3 (vec4_rotr v3 r2)
  let v5 := mix_lanes_vector v4
  vec4_mul_const v5 0x800000000000808A

/-- The final scalar diffusion shared verbatim by `horizontal_xor_vector`,
`horizontal_xor256` and `n256_horizontal_xor` ("final diffusion sequence"). -/
def hxor_finish (r0 : Nat) : Nat :=
  let r1 := r0 ^^^ (r0 >>> 31)
  let r2 := (r1 * 0x0000000000000088) % M
  let r3 := r2 ^^^ (r2 >>> 29)
  let r4 := (r3 * 0x8000000000008089) % M
  let r5 := r4 ^^^ (r4 >>> 32)
  let r6 := rotr64 r5 17 ^^^ rotl64 r5 43
  let r7 := (r6 * 0x8000000080008081) % M
  r7 ^^^ (r7 >>> 27)

/-- Model of `horizontal_xor_vector` from the scalar back-end. -/
def horizontal_xor_vector (v : Vec4) : Nat :=
  let v1 := mix_lanes_vector v
  let v2 := vec4_xor v1 (vec4_permute v1 0x4E)
  let v3 := vec4_xor v2 (vec4_permute v2 0x4E)
  let v4 := vec4_xor v3 (vec4_permute v3 0xB1)
  hxor_finish (v4.x0 ^^^ v4.x1 ^^^ v4.x2 ^^^ v4.x3)

/-- One 10-word LITTLE-box lane (`uint64_t[10]`, a row of `little_box_state`). -/
structure Lane where
  w0 : Nat
  w1 : Nat
  w2 : Nat
  w3 : Nat
  w4 : Nat
  w5 : Nat
  w6 : Nat
  w7 : Nat
  w8 : Nat
  w9 : Nat
deriving DecidableEq, Repr

/-- An all-zero lane; absent batch slots (`in[i] == NULL`) load zeros. -/
def laneZero : Lane := ⟨0, 0, 0, 0, 0, 0, 0, 0, 0, 0⟩

/-- The cross-block mixing applied when a batch holds four full lanes.  The
code is byte-identical in the scalar, AVX2 and NEON executors, so the three
models share this definition; a batch of fewer than four lanes is returned
unchanged (the C guard `blk + 3 < num_blocks`). -/
def cross_mix_group (l : List Lane) : List Lane :=
  match l with
  | [b0, b1, b2, b3] =>
    let mix0 := b0.w9 ^^^ b1.w9 ^^^ b2.w9 ^^^ b3.w9
    let mix1 := rotr64 mix0 17 ^^^ rotl64 mix0 43
    let mix := (mix1 * 0x9E3779B97F4A7C15) % M
    [{ b0 with w9 := b0.w9 ^^^ mix },
     { b1 with w9 := b1.w9 ^^^ rotr64 mix 11 },
     { b2 with w9 := b2.w9 ^^^ rotl64 mix 23 },
     { b3 with w9 := b3.w9 ^^^ (mix ^^^ (mix >>> 31)) }]
  | other => other

/-- Round-constant vector `(RC(b), RC(b+1), RC(b+2), RC(b+3))` used by all
three executors (scalar `rc0/rc1/rc2`, AVX2 `RC4`, NEON `rc0/rc1/rc2`). -/
def rc_vec (b : Nat) : Vec4 := ⟨rc b, rc (b + 1), rc (b + 2), rc (b + 3)⟩

/-- One iteration of the `blk` loop of `little_box_execute_scalar`, acting on
a group of at most four lanes (`in[0..3]`, missing entries load zeros and are
not stored back). -/
def little_box_group_scalar (g : List Lane) (salt_scalar round_base : Nat) : List Lane :=
  let ln (i : Nat) : Lane := g.getD i laneZero
  let salt := vec4_set1 salt_scalar
  let v0i : Vec4 := ⟨(ln 0).w1, (ln 1).w1, (ln 2).w1, (ln 3).w1⟩
  let v0li : Vec4 := ⟨(ln 0).w0, (ln 1).w0, (ln 2).w0, (ln 3).w0⟩
  let v1i : Vec4 := ⟨(ln 0).w5, (ln 1).w5, (ln 2).w5, (ln 3).w5⟩
  let v1li : Vec4 := ⟨(ln 0).w4, (ln 1).w4, (ln 2).w4, (ln 3).w4⟩
  let v2i : Vec4 := ⟨(ln 0).w9, (ln 1).w9, (ln 2).w9, (ln 3).w9⟩
  let v2li : Vec4 := ⟨(ln 0).w8, (ln 1).w8, (ln 2).w8, (ln 3).w8⟩
  let v0 := mix_lanes_vector (arx_mix_vector v0i salt (rc_vec round_base) 7 13)
  let v0l := mix_lanes_vector (arx_mix_vector v0li salt (rc_vec round_base) 7 13)
  let v1 := mix_lanes_vector (arx_mix_vector v1i salt (rc_vec (round_base + 4)) 11 17)
  let v1l := mix_lanes_vector (arx_mix_vector v1li salt (rc_vec (round_base + 4)) 11 17)
  let v2 := mix_lanes_vector (arx_mix_vector v2i salt (rc_vec (round_base + 8)) 19 23)
  let v2l := mix_lanes_vector (arx_mix_vector v2li salt (rc_vec (round_base + 8)) 19 23)
  let acc (p : Nat) (a b c : Vec4) : Vec4 :=
    vec4_xor (vec4_xor (vec4_permute a p) (vec4_permute b p)) (vec4_permute c p)
  let out (i : Nat) : Lane :=
    match i with
    | 0 => { ln 0 with
               w0 := v0.x0, w1 := v0.x1, w4 := v1.x0, w5 := v1.x1,
               w8 := v2.x0, w9 := horizontal_xor_vector (acc 0x00 v0 v1 v2) }
    | 1 => { ln 1 with
               w0 := v0.x2, w1 := v0.x3, w4 := v1.x2, w5 := v1.x3,
               w8 := v2.x2, w9 := horizontal_xor_vector (acc 0x55 v0 v1 v2) }
    | 2 => { ln 2 with
               w0 := v0l.x0, w1 := v0l.x1, w4 := v1l.x0, w5 := v1l.x1,
               w8 := v2l.x0, w9 := horizontal_xor_vector (acc 0xAA v0l v1l v2l) }
    | _ => { ln 3 with
               w0 := v0l.x2, w1 := v0l.x3, w4 := v1l.x2, w5 := v1l.x3,
               w8 := v2l.x2, w9 := horizontal_xor_vector (acc 0xFF v0l v1l v2l) }
  cross_mix_group ((List.range g.length).map out)

/-- Split the lane array into the groups of four that one `blk` iteration
processes (`blk += 4`); only the last group can be shorter. -/
def chunks4 : List Lane → List (List Lane)
  | a :: b :: c :: d :: rest => [a, b, c, d] :: chunks4 rest
  | [] => []
  | rest => [rest]

/-- Model of `little_box_execute_scalar`: the groups are independent (each
reads and writes only its own four lanes), so the loop is a map over the
groups of four. -/
def little_box_execute_scalar (input : List Lane) (salt_scalar round_base : Nat) : List Lane :=
  ((chunks4 input).map (fun g => little_box_group_scalar g salt_scalar round_base)).flatten

/-- Model of the AVX2 `mullo64` emulation from algorithm_simd.h: it combines
`_mm256_mul_epu32(a, b)` (product of the low 32-bit halves) with the product
of the high 32-bit halves shifted left by 32.  (The true 64-bit product would
use the cross terms `a.lo * b.hi + a.hi * b.lo` instead.) -/
def mullo64 (a b : Nat) : Nat :=
  let lo := (a % 4294967296) * (b % 4294967296)
  let hi := (a >>> 32) * (b >>> 32)
  (lo + (hi <<< 32) % M) % M

/-- Lane-wise `mullo64` of two vectors. -/
def vec4_mullo64 (a b : Vec4) : Vec4 :=
  ⟨mullo64 a.x0 b.x0, mullo64 a.x1 b.x1, mullo64 a.x2 b.x2, mullo64 a.x3 b.x3⟩

/-- Model of the AVX2 `mix_lanes`: permute in place by `_MM_SHUFFLE(1,0,3,2)`
(= `0x4E`), XOR with the further `_MM_SHUFFLE(2,3,0,1)` (= `0xB1`) permutation,
then XOR with the 17-bit left rotation. -/
def mix_lanes (v : Vec4) : Vec4 :=
  let a := vec4_permute v 0x4E
  let b := vec4_xor a (vec4_permute a 0xB1)
  vec4_xor b (vec4_rotl b 17)

/-- Model of the AVX2 `arx_mix`: identical to the scalar `arx_mix_vector`
except that the final constant multiplication goes through `mullo64`. -/
def arx_mix (v salt rcv : Vec4) (r1 r2 : Nat) : Vec4 :=
  let v1 := vec4_add v salt
  let v2 := vec4_xor v1 rcv
  let v3 := vec4_add v2 (vec4_rotl v2 r1)
  let v4 := vec4_xor v3 (vec4_rotr v3 r2)
  let v5 := mix_lanes v4
  vec4_mullo64 v5 (vec4_set1 0x800000000000808A)

/-- Model of the AVX2 `horizontal_xor256`.  The 128-bit tail is modelled on
the two lane pairs: `_mm_srli_si128(x, 8)` moves the high 64-bit lane down,
and `_mm_slli_si128(x, 4)` shifts the 128-bit value left by 32 bits, so lane 0
of `x ^ (x << 4 bytes)` is `x0 ^ ((x0 << 32) mod 2^64)`. -/
def horizontal_xor256 (v : Vec4) : Nat :=
  let v1 := mix_lanes v
  let v2 := vec4_xor v1 (vec4_permute v1 0x4E)
  let v3 := vec4_xor v2 (vec4_permute v2 0x4E)
  let v4 := vec4_xor v3 (vec4_permute v3 0xB1)
  let lo0 := v4.x0 ^^^ v4.x2
  let lo1 := v4.x1 ^^^ v4.x3
  let a0 := lo0 ^^^ lo1
  let b0 := a0 ^^^ ((a0 <<< 32) % M)
  hxor_finish b0

/-- One `blk` iteration of `little_box_execute_simd_avx2` on a group of at
most four lanes; the loads, stores and cross-block mix mirror the scalar
executor, the arithmetic goes through `arx_mix` / `mix_lanes` /
`horizontal_xor256`. -/
def little_box_group_avx2 (g : List Lane) (salt_scalar round_base : Nat) : List Lane :=
  let ln (i : Nat) : Lane := g.getD i laneZero
  let salt := vec4_set1 salt_scalar
  let v0i : Vec4 := ⟨(ln 0).w1, (ln 1).w1, (ln 2).w1, (ln 3).w1⟩
  let v0li : Vec4 := ⟨(ln 0).w0, (ln 1).w0, (ln 2).w0, (ln 3).w0⟩
  let v1i : Vec4 := ⟨(ln 0).w5, (ln 1).w5, (ln 2).w5, (ln 3).w5⟩
  let v1li : Vec4 := ⟨(ln 0).w4, (ln 1).w4, (ln 2).w4, (ln 3).w4⟩
  let v2i : Vec4 := ⟨(ln 0).w9, (ln 1).w9, (ln 2).w9, (ln 3).w9⟩
  let v2li : Vec4 := ⟨(ln 0).w8, (ln 1).w8, (ln 2).w8, (ln 3).w8⟩
  let v0 := mix_lanes (arx_mix v0i salt (rc_vec round_base) 7 13)
  let v0l := mix_lanes (arx_mix v0li salt (rc_vec round_base) 7 13)
  let v1 := mix_lanes (arx_mix v1i salt (rc_vec (round_base + 4)) 11 17)
  let v1l := mix_lanes (arx_mix v1li salt (rc_vec (round_base + 4)) 11 17)
  let v2 := mix_lanes (arx_mix v2i salt (rc_vec (round_base + 8)) 19 23)
  let v2l := mix_lanes (arx_mix v2li salt (rc_vec (round_base + 8)) 19 23)
  let acc (p : Nat) (a b c : Vec4) : Vec4 :=
    vec4_xor (vec4_xor (vec4_permute a p) (vec4_permute b p)) (vec4_permute c p)
  let out (i : Nat) : Lane :=
    match i with
    | 0 => { ln 0 with
               w0 := v0.x0, w1 := v0.x1, w4 := v1.x0, w5 := v1.x1,
               w8 := v2.x0, w9 := horizontal_xor256 (acc 0x00 v0 v1 v2) }
    | 1 => { ln 1 with
               w0 := v0.x2, w1 := v0.x3, w4 := v1.x2, w5 := v1.x3,
               w8 := v2.x2, w9 := horizontal_xor256 (acc 0x55 v0 v1 v2) }
    | 2 => { ln 2 with
               w0 := v0l.x0, w1 := v0l.x1, w4 := v1l.x0, w5 := v1l.x1,
               w8 := v2l.x0, w9 := horizontal_xor256 (acc 0xAA v0l v1l v2l) }
    | _ => { ln 3 with
               w0 := v0l.x2, w1 := v0l.x3, w4 := v1l.x2, w5 := v1l.x3,
               w8 := v2l.x2, w9 := horizontal_xor256 (acc 0xFF v0l v1l v2l) }
  cross_mix_group ((List.range g.length).map out)

/-- Model of `little_box_execute_simd_avx2`. -/
def little_box_execute_simd_avx2 (input : List Lane) (salt_scalar round_base : Nat) : List Lane :=
  ((chunks4 input).map (fun g => little_box_group_avx2 g salt_scalar round_base)).flatten

/-- Model of the NEON `n256_mix_lanes` (its body mirrors the scalar
`mix_lanes_vector`: `p0 = permute 0x4E`, `p1 = permute p0 0xB1`, XOR, then XOR
with the 17-bit rotation). -/
def n256_mix_lanes (v : Vec4) : Vec4 :=
  let p0 := vec4_permute v 0x4E
  let p1 := vec4_permute p0 0xB1
  let x := vec4_xor p0 p1
  vec4_xor x (vec4_rotl x 17)

/-- Model of the NEON `n256_mul64`, which multiplies each stored lane by the
constant exactly (scalar 64-bit multiply, unlike the AVX2 emulation). -/
def n256_mul64 (v : Vec4) (c : Nat) : Vec4 :=
  ⟨(v.x0 * c) % M, (v.x1 * c) % M, (v.x2 * c) % M, (v.x3 * c) % M⟩

/-- Model of the NEON `n256_arx_mix`. -/
def n256_arx_mix (v salt rcv : Vec4) (r1 r2 : Nat) : Vec4 :=
  let v1 := vec4_add v salt
  let v2 := vec4_xor v1 rcv
  let v3 := vec4_add v2 (vec4_rotl v2 r1)
  let v4 := vec4_xor v3 (vec4_rotr v3 r2)
  let v5 := n256_mix_lanes v4
  n256_mul64 v5 0x800000000000808A

/-- Model of the NEON `n256_horizontal_xor`: lane mixing, two permute-XOR
steps (`0x4E`, then `0xB1`), XOR of the four lanes, then the shared final
diffusion. -/
def n256_horizontal_xor (v : Vec4) : Nat :=
  let v1 := n256_mix_lanes v
  let v2 := vec4_xor v1 (vec4_permute v1 0x4E)
  let v3 := vec4_xor v2 (vec4_permute v2 0xB1)
  hxor_finish (v3.x0 ^^^ v3.x1 ^^^ v3.x2 ^^^ v3.x3)

/-- One `blk` iteration of `little_box_execute_simd_neon` on a group of at
most four lanes. -/
def little_box_group_neon (g : List Lane) (salt_scalar round_base : Nat) : List Lane :=
  let ln (i : Nat) : Lane := g.getD i laneZero
  let salt := vec4_set1 salt_scalar
  let v0i : Vec4 := ⟨(ln 0).w1, (ln 1).w1, (ln 2).w1, (ln 3).w1⟩
  let v0li : Vec4 := ⟨(ln 0).w0, (ln 1).w0, (ln 2).w0, (ln 3).w0⟩
  let v1i : Vec4 := ⟨(ln 0).w5, (ln 1).w5, (ln 2).w5, (ln 3).w5⟩
  let v1li : Vec4 := ⟨(ln 0).w4, (ln 1).w4, (ln 2).w4, (ln 3).w4⟩
  let v2i : Vec4 := ⟨(ln 0).w9, (ln 1).w9, (ln 2).w9, (ln 3).w9⟩
  let v2li : Vec4 := ⟨(ln 0).w8, (ln 1).w8, (ln 2).w8, (ln 3).w8⟩
  let v0 := n256_mix_lanes (n256_arx_mix v0i salt (rc_vec round_base) 7 13)
  let v0l := n256_mix_lanes (n256_arx_mix v0li salt (rc_vec round_base) 7 13)
  let v1 := n256_mix_lanes (n256_arx_mix v1i salt (rc_vec (round_base + 4)) 11 17)
  let v1l := n256_mix_lanes (n256_arx_mix v1li salt (rc_vec (round_base + 4)) 11 17)
  let v2 := n256_mix_lanes (n256_arx_mix v2i salt (rc_vec (round_base + 8)) 19 23)
  let v2l := n256_mix_lanes (n256_arx_mix v2li salt (rc_vec (round_base + 8)) 19 23)
  let acc (p : Nat) (a b c : Vec4) : Vec4 :=
    vec4_xor (vec4_xor (vec4_permute a p) (vec4_permute b p)) (vec4_permute c p)
  let out (i : Nat) : Lane :=
    match i with
    | 0 => { ln 0 with
               w0 := v0.x0, w1 := v0.x1, w4 := v1.x0, w5 := v1.x1,
               w8 := v2.x0, w9 := n256_horizontal_xor (acc 0x00 v0 v1 v2) }
    | 1 => { ln 1 with
               w0 := v0.x2, w1 := v0.x3, w4 := v1.x2, w5 := v1.x3,
               w8 := v2.x2, w9 := n256_horizontal_xor (acc 0x55 v0 v1 v2) }
    | 2 => { ln 2 with
               w0 := v0l.x0, w1 := v0l.x1, w4 := v1l.x0, w5 := v1l.x1,
               w8 := v2l.x0, w9 := n256_horizontal_xor (acc 0xAA v0l v1l v2l) }
    | _ => { ln 3 with
               w0 := v0l.x2, w1 := v0l.x3, w4 := v1l.x2, w5 := v1l.x3,
               w8 := v2l.x2, w9 := n256_horizontal_xor (acc 0xFF v0l v1l v2l) }
  cross_mix_group ((List.range g.length).map out)

/-- Model of `little_box_execute_simd_neon`. -/
def little_box_execute_simd_neon (input : List Lane) (salt_scalar round_base : Nat) : List Lane :=
  ((chunks4 input).map (fun g => little_box_group_neon g salt_scalar round_base)).flatten

/-- Model of `bytes_to_u64`: read 8 bytes little-endian. -/
def bytes_to_u64 (b : List Nat) : Nat :=
  (b.getD 0 0 + (b.getD 1 0) <<< 8 + (b.getD 2 0) <<< 16 + (b.getD 3 0) <<< 24 +
   (b.getD 4 0) <<< 32 + (b.getD 5 0) <<< 40 + (b.getD 6 0) <<< 48 + (b.getD 7 0) <<< 56) % M

/-- Model of `u64_to_bytes`: write a 64-bit word as 8 little-endian bytes. -/
def u64_to_bytes (v : Nat) : List Nat :=
  [v % 256, (v >>> 8) % 256, (v >>> 16) % 256, (v >>> 24) % 256,
   (v >>> 32) % 256, (v >>> 40) % 256, (v >>> 48) % 256, (v >>> 56) % 256]

/-- Parse a 128-byte block into 16 little-endian words (`block[i] =
bytes_to_u64(buffer + i*8)`). -/
def block_words (buf : List Nat) : List Nat :=
  (List.range 16).map (fun i => bytes_to_u64 ((buf.drop (8 * i)).take 8))

/-- Model of `XzalgoChain_CTX`.  `buffer` always holds the full 128 bytes of
the C array (including stale bytes beyond `buffer_len`); `buffer_len` is the
separate counter.  The process-wide SIMD tag is not modelled: this development
embeds the scalar back-end pipeline (the AVX2 divergence is analysed at the
LITTLE-box level). -/
structure Ctx where
  h : H5
  little_box_state : List Lane
  big_box_state : List (List Nat)
  buffer : List Nat
  buffer_len : Nat
  total_bits : Nat
deriving DecidableEq, Repr

/-- Model of `xzalgochain_init`: fixed initial words, three extra XORs, the
five-step in-place init mix (reading partially-updated words), and zeroed
state arrays, buffer and counters. -/
def xzalgochain_init : Ctx :=
  let g0 := 0xBB67AE854A7D9E31 ^^^ 0x9E3779B97F4A7C15
  let g1 := 0x5BE0CD19B7F3A69C ^^^ 0xBF58476D1CE4E5B9
  let g2 := 0x6A09E667F2B5C8D3 ^^^ 0x94D049BB133111EB
  let g3 := 0x3C6EF372D8B4F1A6
  let g4 := 0x510E527F4D8C3A92
  let mix (x : Nat) (i : Nat) (other : Nat) : Nat :=
    let x1 := x ^^^ ROUND_CONSTANTS.getD (i * 10) 0
    let x2 := rotl64 x1 (17 + i * 7)
    let x3 := (x2 * 0x9E3779B97F4A7C15) % M
    x3 ^^^ other
  let m0 := mix g0 0 g2
  let m1 := mix g1 1 g3
  let m2 := mix g2 2 g4
  let m3 := mix g3 3 m0
  let m4 := mix g4 4 m1
  { h := ⟨m0, m1, m2, m3, m4⟩,
    little_box_state := List.replicate 10 laneZero,
    big_box_state := List.replicate 5 (List.replicate 5 0),
    buffer := List.replicate 128 0,
    buffer_len := 0,
    total_bits := 0 }

/-- Overwrite `buf[pos .. pos+|data|)` with `data` (a `memcpy` into the
128-byte buffer). -/
def write_bytes (buf : List Nat) (pos : Nat) (data : List Nat) : List Nat :=
  buf.take pos ++ data ++ buf.drop (pos + data.length)

/-- The `while (offset+128<=len)` loop of `xzalgochain_update`: consume full
128-byte blocks from the front of `data`, returning the new state and the
remaining (`< 128` byte) tail.  Fuel-indexed so that the kernel can evaluate
it; `process_blocks` instantiates the fuel with the data length. -/
def process_blocks_aux : Nat → H5 → List Nat → H5 × List Nat
  | 0, h, data => (h, data)
  | fuel + 1, h, data =>
    if 128 ≤ data.length then
      process_blocks_aux fuel (process_block h (block_words (data.take 128))) (data.drop 128)
    else
      (h, data)

/-- Full-block consumption with enough fuel for any input. -/
def process_blocks (h : H5) (data : List Nat) : H5 × List Nat :=
  process_blocks_aux data.length h data

/-- Model of `xzalgochain_update` from XzalgoChain.h, branch for branch:
early return on empty input; top-up of a non-empty buffer (processing it when
it reaches 128 bytes); direct consumption of whole blocks from the input; and
the final copy of the remaining tail into the buffer. -/
def xzalgochain_update (c : Ctx) (data : List Nat) : Ctx :=
  if data.isEmpty then c
  else
    let tb := (c.total_bits + data.length * 8) % M
    if 0 < c.buffer_len then
      let copy_len := min data.length (128 - c.buffer_len)
      let buf1 := write_bytes c.buffer c.buffer_len (data.take copy_len)
      let bl1 := c.buffer_len + copy_len
      if bl1 = 128 then
        let h1 := process_block c.h (block_words buf1)
        let pr := process_blocks h1 (data.drop copy_len)
        if pr.2.isEmpty then
          { c with h := pr.1, buffer := buf1, buffer_len := 0, total_bits := tb }
        else
          { c with h := pr.1, buffer := write_bytes buf1 0 pr.2,
                   buffer_len := pr.2.length, total_bits := tb }
      else
        { c with buffer := buf1, buffer_len := bl1, total_bits := tb }
    else
      let pr := process_blocks c.h data
      if pr.2.isEmpty then
        { c with h := pr.1, total_bits := tb }
      else
        { c with h := pr.1, buffer := write_bytes c.buffer 0 pr.2,
                 buffer_len := pr.2.length, total_bits := tb }

/-- Model of `big_box_execute` (with the scalar executor, which is what the
`SIMD_NONE` / forced-scalar path dispatches): derive the salt from the current
state, run the ten LITTLE boxes, store their lanes, and fold them into
`big_box_state[box_index]`.  The `salt_variation` update after the executor
call in the C code is a dead store (the next iteration recomputes it) and is
therefore not modelled. -/
def big_box_execute (c : Ctx) (box_index : Nat) (round_base : Nat) : Ctx :=
  let salt := generate_salt c.h
  let sw (i : Nat) : Nat := salt.getD i 0
  let lanes := (List.range 10).map (fun lb =>
    let lane : Lane :=
      ⟨c.h.h0 ^^^ sw 0, c.h.h1 ^^^ sw 1, c.h.h2 ^^^ sw 2, c.h.h3 ^^^ sw 3, c.h.h4 ^^^ sw 4,
       c.h.h0 ^^^ rc (lb * 10), c.h.h1 ^^^ rc (lb * 10 + 1), c.h.h2 ^^^ rc (lb * 10 + 2),
       c.h.h3 ^^^ rc (lb * 10 + 3), c.h.h4 ^^^ rc (lb * 10 + 4)⟩
    let salt_variation := sw (lb % 5) ^^^ rc (lb * 10)
    (little_box_execute_scalar [lane] salt_variation (round_base + lb * 10)).headD laneZero)
  let lane_word (lb k : Nat) : Nat :=
    let l := lanes.getD lb laneZero
    match k with
    | 0 => l.w0 | 1 => l.w1 | 2 => l.w2 | 3 => l.w3 | 4 => l.w4
    | 5 => l.w5 | 6 => l.w6 | 7 => l.w7 | 8 => l.w8 | _ => l.w9
  let row := (List.range 5).map (fun i =>
    let acc := (List.range 10).foldl
      (fun acc lb => ((acc ^^^ lane_word lb (i * 2)) + lane_word lb (i * 2 + 1)) % M) 0
    gamma_mix acc (sw i) (rc (box_index * 100 + i)) ((round_base + 1000) % M))
  { c with little_box_state := lanes,
           big_box_state := c.big_box_state.set box_index row }

/-- The padded final block: `buffer[buffer_len] = 0x80; buffer_len++;
memset(buffer+buffer_len, 0, 128-buffer_len)`. -/
def pad_final (c : Ctx) : List Nat :=
  write_bytes (write_bytes c.buffer c.buffer_len [0x80]) (c.buffer_len + 1)
    (List.replicate (128 - (c.buffer_len + 1)) 0)

/-- Output-mix A of `xzalgochain_final` (per-word, `rot[] = {31,27,33,23,29}`). -/
def output_mix_a (h : H5) : H5 :=
  let rot : List Nat := [31, 27, 33, 23, 29]
  let step (x : Nat) (i : Nat) : Nat :=
    let x1 := x ^^^ rotr64 x (rot.getD i 0)
    let x2 := (x1 * 0x510E9BB7927522F5) % M
    let x3 := (x2 + 0x243F6A8885A308D3) % M
    let x4 := x3 ^^^ rotr64 x3 (rot.getD ((i + 1) % 5) 0)
    let x5 := (x4 * 0xA0761D647ABD642F) % M
    let x6 := x5 ^^^ (x5 >>> 23)
    x6 ^^^ (x6 >>> 38)
  ⟨step h.h0 0, step h.h1 1, step h.h2 2, step h.h3 3, step h.h4 4⟩

/-- Output-mix B of `xzalgochain_final` (cross-BIG-box folding into
`final_mix`, then copied back over the state). -/
def output_mix_b (h : H5) (bb : List (List Nat)) : H5 :=
  let big (b i : Nat) : Nat := (bb.getD b []).getD i 0
  let hw : List Nat := [h.h0, h.h1, h.h2, h.h3, h.h4]
  let step (i : Nat) : Nat :=
    let acc := (List.range 5).foldl
      (fun acc b =>
        let a1 := acc ^^^ big b i
        let a2 := rotr64 a1 19 ^^^ rotl64 a1 37
        let a3 := (a2 + big b ((i + 2) % 5)) % M
        (a3 * 0x9E3779B97F4A7C15) % M)
      (hw.getD i 0)
    let a4 := acc ^^^ (acc >>> 29)
    let a5 := (a4 * 0xBF58476D1CE4E5B9) % M
    let a6 := a5 ^^^ (a5 >>> 27)
    let a7 := (a6 * 0x94D049BB133111EB) % M
    a7 ^^^ (a7 >>> 31)
  ⟨step 0, step 1, step 2, step 3, step 4⟩

/-- Output-mix C of `xzalgochain_final`: three rounds of `extra_mix`, XOR with
`big_box_state[round % 5]`, and a rotation (each word independent). -/
def output_mix_c (h : H5) (bb : List (List Nat)) : H5 :=
  let big (b i : Nat) : Nat := (bb.getD b []).getD i 0
  let round (r : Nat) (h : H5) : H5 :=
    let step (x : Nat) (i : Nat) : Nat :=
      rotl64 (extra_mix x ^^^ big (r % 5) i) (17 + r * 5)
    ⟨step h.h0 0, step h.h1 1, step h.h2 2, step h.h3 3, step h.h4 4⟩
  round 2 (round 1 (round 0 h))

/-- Output-mix D of `xzalgochain_final`: five rounds; the accumulator `mix`
reads the pre-round state, the feedback loop updates in place ascending, so
`h[(i+1)%5]` for `i = 4` reads the freshly-updated `h[0]`. -/
def output_mix_d (h : H5) : H5 :=
  let round (h : H5) : H5 :=
    let m0 := 0 ^^^ h.h0
    let m1 := rotl64 m0 17 ^^^ h.h2
    let m2 := rotl64 (m1 ^^^ h.h1) 17 ^^^ h.h3
    let m3 := rotl64 (m2 ^^^ h.h2) 17 ^^^ h.h4
    let m4 := rotl64 (m3 ^^^ h.h3) 17 ^^^ h.h0
    let mix := rotl64 (m4 ^^^ h.h4) 17 ^^^ h.h1
    let fb (x : Nat) (i : Nat) (next : Nat) : Nat :=
      let x1 := x ^^^ rotl64 mix (i * 13)
      let x2 := (x1 * 0x9E3779B97F4A7C15) % M
      let x3 := x2 ^^^ (next >>> (i * 7 + 3))
      rotr64 x3 (23 + i * 5)
    let f0 := fb h.h0 0 h.h1
    let f1 := fb h.h1 1 h.h2
    let f2 := fb h.h2 2 h.h3
    let f3 := fb h.h3 3 h.h4
    let f4 := fb h.h4 4 f0
    ⟨f0, f1, f2, f3, f4⟩
  round (round (round (round (round h))))

/-- Serialize the five state words to the 40 output bytes, little-endian. -/
def serialize_h (h : H5) : List Nat :=
  u64_to_bytes h.h0 ++ u64_to_bytes h.h1 ++ u64_to_bytes h.h2 ++
  u64_to_bytes h.h3 ++ u64_to_bytes h.h4

/-- Model of `xzalgochain_final`: padding, one `process_block`, the five
BIG-box stages (`round_base = bb*2000`), output mixes A-D and serialization.
Returns the 40 digest bytes together with the context as the C code leaves it
(the context is NOT wiped; the `generate_salt` call before the stage loop is
dead code and not modelled). -/
def xzalgochain_final (c : Ctx) : List Nat × Ctx :=
  let padded := pad_final c
  let h1 := process_block c.h (block_words padded)
  let c1 : Ctx := { c with h := h1, buffer := padded, buffer_len := c.buffer_len + 1 }
  let c2 := (List.range 5).foldl (fun cc bb => big_box_execute cc bb (bb * 2000)) c1
  let h2 := output_mix_a c2.h
  let h3 := output_mix_b h2 c2.big_box_state
  let h4 := output_mix_c h3 c2.big_box_state
  let h5 := output_mix_d h4
  (serialize_h h5, { c2 with h := h5 })

/-- The digest of the streaming pipeline `init` / one `update` / `final`. -/
def streaming_digest (m : List Nat) : List Nat :=
  (xzalgochain_final (xzalgochain_update xzalgochain_init m)).1

/-- Read the 40 output bytes back as five words (`uint64_t *out = (uint64_t*)
output` on a little-endian host). -/
def words_of_output (out : List Nat) : H5 :=
  ⟨bytes_to_u64 (out.take 8), bytes_to_u64 ((out.drop 8).take 8),
   bytes_to_u64 ((out.drop 16).take 8), bytes_to_u64 ((out.drop 24).take 8),
   bytes_to_u64 ((out.drop 32).take 8)⟩

/-- One in-place mixing pass of the single-shot wrapper (the body of the
`mix` loop): `acc` accumulates the pre-update words, and `out[(i+2)%5]` for
`i = 3, 4` reads freshly-updated words. -/
def single_shot_pass (w : H5) : H5 :=
  let step (acc x o2 : Nat) : Nat × Nat :=
    let acc1 := acc ^^^ x
    let y1 := rotr64 x 19 ^^^ rotl64 acc1 37
    let y2 := (y1 * 0xBF58476D1CE4E5B9) % M
    (acc1, y2 ^^^ (o2 >>> 27))
  let p0 := step 0 w.h0 w.h2
  let p1 := step p0.1 w.h1 w.h3
  let p2 := step p1.1 w.h2 w.h4
  let p3 := step p2.1 w.h3 p0.2
  let p4 := step p3.1 w.h4 p1.2
  ⟨p0.2, p1.2, p2.2, p3.2, p4.2⟩

/-- The three mixing passes of the single-shot wrapper (`mix = 0, 1, 2`). -/
def single_shot_mix3 (w : H5) : H5 :=
  single_shot_pass (single_shot_pass (single_shot_pass w))

/-- The last mixing pass of the single-shot wrapper: `out64[i] =
extra_mix(out64[i]); out64[i] ^= out64[(i+2)%5]` in place ascending. -/
def single_shot_mix_extra (w : H5) : H5 :=
  let q0 := extra_mix w.h0 ^^^ w.h2
  let q1 := extra_mix w.h1 ^^^ w.h3
  let q2 := extra_mix w.h2 ^^^ w.h4
  let q3 := extra_mix w.h3 ^^^ q0
  let q4 := extra_mix w.h4 ^^^ q1
  ⟨q0, q1, q2, q3, q4⟩

/-- Model of the single-shot wrapper `xzalgochain`: init / update / final,
then the three post-serialization passes (re-serialized), then the extra-mix
pass (re-serialized again). -/
def xzalgochain (m : List Nat) : List Nat :=
  let out0 := (xzalgochain_final (xzalgochain_update xzalgochain_init m)).1
  let out1 := serialize_h (single_shot_mix3 (words_of_output out0))
  serialize_h (single_shot_mix_extra (words_of_output out1))

/-- The per-word update sequence exactly as the specification of the block
compressor states it, written independently of `process_block`: for each
`i = 0..4` in ascending order and in place, with `a = h_i`, `b = B[i]`,
`c = B[i+5]`, `d = B[i+10]`, compute `a = rotl(a + (b ^ 6A09E667BB67AE85), 13)`;
`a = rotl(a ^ (c + 3C6EF372A54FF53A), 29)`; `a = rotl(a + (d ^
510E527F9B05688C), 37)`; `a ^= h[(i+1) mod 5]`; `a = rotl(a + h[(i+4) mod 5],
17)`; `a ^= a >> 32`; `a ^= a << 21`; `a *= 1F83D9AB5BE0CD19`; `a ^= a >> 29`;
`a ^= a << 17`; `h_i = a`, where the neighbour words read the partially
updated state (all arithmetic wrapping 64-bit). -/
def process_block_spec (h : H5) (block : List Nat) : H5 :=
  let b (i : Nat) : Nat := block.getD i 0
  let seqStep (a bw cw dw hn hp : Nat) : Nat :=
    let s1 := rotl64 ((a + (bw ^^^ 0x6A09E667BB67AE85)) % M) 13
    let s2 := rotl64 (s1 ^^^ ((cw + 0x3C6EF372A54FF53A) % M)) 29
    let s3 := rotl64 ((s2 + (dw ^^^ 0x510E527F9B05688C)) % M) 37
    let s4 := s3 ^^^ hn
    let s5 := rotl64 ((s4 + hp) % M) 17
    let s6 := s5 ^^^ (s5 >>> 32)
    let s7 := s6 ^^^ ((s6 <<< 21) % M)
    let s8 := (s7 * 0x1F83D9AB5BE0CD19) % M
    let s9 := s8 ^^^ (s8 >>> 29)
    s9 ^^^ ((s9 <<< 17) % M)
  let n0 := seqStep h.h0 (b 0) (b 5) (b 10) h.h1 h.h4
  let n1 := seqStep h.h1 (b 1) (b 6) (b 11) h.h2 n0
  let n2 := seqStep h.h2 (b 2) (b 7) (b 12) h.h3 n1
  let n3 := seqStep h.h3 (b 3) (b 8) (b 13) h.h4 n2
  let n4 := seqStep h.h4 (b 4) (b 9) (b 14) n0 n3
  ⟨n0, n1, n2, n3, n4⟩

/-- The post-serialization mixing of the single-shot wrapper, as a
transformation of the 40 digest bytes: the three acc-folding passes followed
by the extra-mix pass, each re-serialized little-endian. -/
def single_shot_post_mix (digest : List Nat) : List Nat :=
  serialize_h (single_shot_mix_extra
    (words_of_output (serialize_h (single_shot_mix3 (words_of_output digest)))))

/-- All five state words fit in 64 bits. -/
def h5_lt_M (w : H5) : Prop :=
  w.h0 < M ∧ w.h1 < M ∧ w.h2 < M ∧ w.h3 < M ∧ w.h4 < M

/-- Representation invariant of a streaming context: it was reached from
`xzalgochain_init` after absorbing exactly the byte stream `s`. -/
def stream_rep (c : Ctx) (s : List Nat) : Prop :=
  c.h = (process_blocks xzalgochain_init.h s).1 ∧
  c.buffer_len = (process_blocks xzalgochain_init.h s).2.length ∧
  c.buffer.take c.buffer_len = (process_blocks xzalgochain_init.h s).2 ∧
  c.total_bits = (s.length * 8) % M ∧
  c.buffer.length = 128 ∧
  c.little_box_state = xzalgochain_init.little_box_state ∧
  c.big_box_state = xzalgochain_init.big_box_state

/-- Helper: the lane value produced by `mix_lanes_vector` (XOR of a pair with
its own 17-rotation). -/
def mm (u w : Nat) : Nat := (u ^^^ w) ^^^ rotl64 (u ^^^ w) 17

/-- Canonical effect of one executor batch: zero the six stored slots. -/
def zero_slots (l : Lane) : Lane :=
  { l with w0 := 0, w1 := 0, w4 := 0, w5 := 0, w8 := 0, w9 := 0 }

/-- Model of `big_box_execute` when the context dispatches the AVX2 executor
(`simd_type == SIMD_AVX2` on an AVX2 build, force-scalar flag clear): same
body as `big_box_execute` with `little_box_execute_simd_avx2` in place of the
scalar executor. -/
def big_box_execute_avx2 (c : Ctx) (box_index : Nat) (round_base : Nat) : Ctx :=
  let salt := generate_salt c.h
  let sw (i : Nat) : Nat := salt.getD i 0
  let lanes := (List.range 10).map (fun lb =>
    let lane : Lane :=
      ⟨c.h.h0 ^^^ sw 0, c.h.h1 ^^^ sw 1, c.h.h2 ^^^ sw 2, c.h.h3 ^^^ sw 3, c.h.h4 ^^^ sw 4,
       c.h.h0 ^^^ rc (lb * 10), c.h.h1 ^^^ rc (lb * 10 + 1), c.h.h2 ^^^ rc (lb * 10 + 2),
       c.h.h3 ^^^ rc (lb * 10 + 3), c.h.h4 ^^^ rc (lb * 10 + 4)⟩
    let salt_variation := sw (lb % 5) ^^^ rc (lb * 10)
    (little_box_execute_simd_avx2 [lane] salt_variation (round_base + lb * 10)).headD laneZero)
  let lane_word (lb k : Nat) : Nat :=
    let l := lanes.getD lb laneZero
    match k with
    | 0 => l.w0 | 1 => l.w1 | 2 => l.w2 | 3 => l.w3 | 4 => l.w4
    | 5 => l.w5 | 6 => l.w6 | 7 => l.w7 | 8 => l.w8 | _ => l.w9
  let row := (List.range 5).map (fun i =>
    let acc := (List.range 10).foldl
      (fun acc lb => ((acc ^^^ lane_word lb (i * 2)) + lane_word lb (i * 2 + 1)) % M) 0
    gamma_mix acc (sw i) (rc (box_index * 100 + i)) ((round_base + 1000) % M))
  { c with little_box_state := lanes,
           big_box_state := c.big_box_state.set box_index row }

/-- Model of `big_box_execute` when the context dispatches the NEON executor. -/
def big_box_execute_neon (c : Ctx) (box_index : Nat) (round_base : Nat) : Ctx :=
  let salt := generate_salt c.h
  let sw (i : Nat) : Nat := salt.getD i 0
  let lanes := (List.range 10).map (fun lb =>
    let lane : Lane :=
      ⟨c.h.h0 ^^^ sw 0, c.h.h1 ^^^ sw 1, c.h.h2 ^^^ sw 2, c.h.h3 ^^^ sw 3, c.h.h4 ^^^ sw 4,
       c.h.h0 ^^^ rc (lb * 10), c.h.h1 ^^^ rc (lb * 10 + 1), c.h.h2 ^^^ rc (lb * 10 + 2),
       c.h.h3 ^^^ rc (lb * 10 + 3), c.h.h4 ^^^ rc (lb * 10 + 4)⟩
    let salt_variation := sw (lb % 5) ^^^ rc (lb * 10)
    (little_box_execute_simd_neon [lane] salt_variation (round_base + lb * 10)).headD laneZero)
  let lane_word (lb k : Nat) : Nat :=
    let l := lanes.getD lb laneZero
    match k with
    | 0 => l.w0 | 1 => l.w1 | 2 => l.w2 | 3 => l.w3 | 4 => l.w4
    | 5 => l.w5 | 6 => l.w6 | 7 => l.w7 | 8 => l.w8 | _ => l.w9
  let row := (List.range 5).map (fun i =>
    let acc := (List.range 10).foldl
      (fun acc lb => ((acc ^^^ lane_word lb (i * 2)) + lane_word lb (i * 2 + 1)) % M) 0
    gamma_mix acc (sw i) (rc (box_index * 100 + i)) ((round_base + 1000) % M))
  { c with little_box_state := lanes,
           big_box_state := c.big_box_state.set box_index row }

/-- Streaming `final` with the AVX2 back-end driving every BIG-box stage. -/
def xzalgochain_final_avx2 (c : Ctx) : List Nat × Ctx :=
  let padded := pad_final c
  let h1 := process_block c.h (block_words padded)
  let c1 : Ctx := { c with h := h1, buffer := padded, buffer_len := c.buffer_len + 1 }
  let c2 := (List.range 5).foldl (fun cc bb => big_box_execute_avx2 cc bb (bb * 2000)) c1
  let h2 := output_mix_a c2.h
  let h3 := output_mix_b h2 c2.big_box_state
  let h4 := output_mix_c h3 c2.big_box_state
  let h5 := output_mix_d h4
  (serialize_h h5, { c2 with h := h5 })

/-- Streaming `final` with the NEON back-end driving every BIG-box stage. -/
def xzalgochain_final_neon (c : Ctx) : List Nat × Ctx :=
  let padded := pad_final c
  let h1 := process_block c.h (block_words padded)
  let c1 : Ctx := { c with h := h1, buffer := padded, buffer_len := c.buffer_len + 1 }
  let c2 := (List.range 5).foldl (fun cc bb => big_box_execute_neon cc bb (bb * 2000)) c1
  let h2 := output_mix_a c2.h
  let h3 := output_mix_b h2 c2.big_box_state
  let h4 := output_mix_c h3 c2.big_box_state
  let h5 := output_mix_d h4
  (serialize_h h5, { c2 with h := h5 })

/-- Streaming digest computed with the AVX2 back-end. -/
def streaming_digest_avx2 (m : List Nat) : List Nat :=
  (xzalgochain_final_avx2 (xzalgochain_update xzalgochain_init m)).1

/-- Streaming digest computed with the NEON back-end. -/
def streaming_digest_neon (m : List Nat) : List Nat :=
  (xzalgochain_final_neon (xzalgochain_update xzalgochain_init m)).1

lemma mm_comm (u w : Nat) : mm u w = mm w u := by
  unfold mm; rw [Nat.xor_comm u w]

lemma mm_self (u : Nat) : mm u u = 0 := by
  unfold mm; rw [Nat.xor_self]; rfl

lemma mix_lanes_vector_raw (v : Vec4) :
    mix_lanes_vector v = ⟨mm v.x2 v.x3, mm v.x3 v.x2, mm v.x0 v.x1, mm v.x1 v.x0⟩ := rfl

lemma mix_lanes_eq_vector (v : Vec4) : mix_lanes v = mix_lanes_vector v := rfl

lemma n256_mix_lanes_eq_vector (v : Vec4) : n256_mix_lanes v = mix_lanes_vector v := rfl

lemma mix_lanes_vector_shape (v : Vec4) :
    mix_lanes_vector v = ⟨mm v.x2 v.x3, mm v.x2 v.x3, mm v.x0 v.x1, mm v.x0 v.x1⟩ := by
  rw [mix_lanes_vector_raw, mm_comm v.x3 v.x2, mm_comm v.x1 v.x0]

lemma mix_mul_mix_scalar (v : Vec4) (c : Nat) :
    mix_lanes_vector (vec4_mul_const (mix_lanes_vector v) c) = ⟨0, 0, 0, 0⟩ := by
  rw [mix_lanes_vector_shape v]
  show mix_lanes_vector ⟨_, _, _, _⟩ = _
  rw [mix_lanes_vector_shape]
  simp [vec4_mul_const, mm_self]

lemma mix_mul_mix_avx2 (v : Vec4) (c : Nat) :
    mix_lanes (vec4_mullo64 (mix_lanes v) (vec4_set1 c)) = ⟨0, 0, 0, 0⟩ := by
  rw [mix_lanes_eq_vector, mix_lanes_eq_vector, mix_lanes_vector_shape v]
  show mix_lanes_vector ⟨_, _, _, _⟩ = _
  rw [mix_lanes_vector_shape]
  simp [vec4_mullo64, vec4_set1, mm_self]

lemma mix_mul_mix_neon (v : Vec4) (c : Nat) :
    n256_mix_lanes (n256_mul64 (n256_mix_lanes v) c) = ⟨0, 0, 0, 0⟩ := by
  rw [n256_mix_lanes_eq_vector, n256_mix_lanes_eq_vector, mix_lanes_vector_shape v]
  show mix_lanes_vector ⟨_, _, _, _⟩ = _
  rw [mix_lanes_vector_shape]
  simp [n256_mul64, mm_self]

lemma horizontal_xor_vector_zero (v : Vec4) : horizontal_xor_vector v = 0 := by
  unfold horizontal_xor_vector
  rw [mix_lanes_vector_shape v]
  generalize mm v.x2 v.x3 = a
  generalize mm v.x0 v.x1 = b
  show hxor_finish _ = 0
  simp only [vec4_xor, vec4_permute, Vec4.sel]
  rw [Nat.xor_comm b a]
  simp [Nat.xor_self]
  rfl

lemma horizontal_xor256_zero (v : Vec4) : horizontal_xor256 v = 0 := by
  unfold horizontal_xor256
  rw [mix_lanes_eq_vector, mix_lanes_vector_shape v]
  generalize mm v.x2 v.x3 = a
  generalize mm v.x0 v.x1 = b
  show hxor_finish _ = 0
  simp only [vec4_xor, vec4_permute, Vec4.sel]
  rw [Nat.xor_comm b a]
  simp [Nat.xor_self]
  rfl

lemma n256_horizontal_xor_zero (v : Vec4) : n256_horizontal_xor v = 0 := by
  unfold n256_horizontal_xor
  rw [n256_mix_lanes_eq_vector, mix_lanes_vector_shape v]
  generalize mm v.x2 v.x3 = a
  generalize mm v.x0 v.x1 = b
  show hxor_finish _ = 0
  simp only [vec4_xor, vec4_permute, Vec4.sel]
  rw [Nat.xor_comm b a]
  simp [Nat.xor_self]
  rfl

lemma rotl64_zero (n : Nat) : rotl64 0 n = 0 := by simp [rotl64]

lemma rotr64_zero (n : Nat) : rotr64 0 n = 0 := by simp [rotr64]

lemma mix_arx_scalar (x s r : Vec4) (r1 r2 : Nat) :
    mix_lanes_vector (arx_mix_vector x s r r1 r2) = ⟨0, 0, 0, 0⟩ := by
  unfold arx_mix_vector
  exact mix_mul_mix_scalar _ _

lemma mix_arx_avx2 (x s r : Vec4) (r1 r2 : Nat) :
    mix_lanes (arx_mix x s r r1 r2) = ⟨0, 0, 0, 0⟩ := by
  unfold arx_mix
  exact mix_mul_mix_avx2 _ _

lemma mix_arx_neon (x s r : Vec4) (r1 r2 : Nat) :
    n256_mix_lanes (n256_arx_mix x s r r1 r2) = ⟨0, 0, 0, 0⟩ := by
  unfold n256_arx_mix
  exact mix_mul_mix_neon _ _

lemma cross_mix_group_zero (l : List Lane) (h : ∀ x ∈ l, x.w9 = 0) :
    cross_mix_group l = l := by
  rcases l with _ | ⟨b0, _ | ⟨b1, _ | ⟨b2, _ | ⟨b3, _ | ⟨b4, t⟩⟩⟩⟩⟩ <;> try rfl
  obtain ⟨a0, a1, a2, a3, a4, a5, a6, a7, a8, a9⟩ := b0
  obtain ⟨c0, c1, c2, c3, c4, c5, c6, c7, c8, c9⟩ := b1
  obtain ⟨d0, d1, d2, d3, d4, d5, d6, d7, d8, d9⟩ := b2
  obtain ⟨e0, e1, e2, e3, e4, e5, e6, e7, e8, e9⟩ := b3
  simp only [List.mem_cons, List.not_mem_nil, or_false, forall_eq_or_imp, forall_eq] at h
  obtain ⟨h0, h1, h2, h3⟩ := h
  subst h0 h1 h2 h3
  simp [cross_mix_group, rotr64_zero, rotl64_zero]

lemma group_scalar_canon (g : List Lane) (s rb : Nat) (hg : g.length ≤ 4) :
    little_box_group_scalar g s rb =
      (List.range g.length).map (fun i => zero_slots (g.getD i laneZero)) := by
  rcases g with _ | ⟨l0, _ | ⟨l1, _ | ⟨l2, _ | ⟨l3, _ | ⟨l4, t⟩⟩⟩⟩⟩
  · rfl
  · simp [little_box_group_scalar, mix_arx_scalar, horizontal_xor_vector_zero,
      cross_mix_group, zero_slots, List.range_succ]
  · simp [little_box_group_scalar, mix_arx_scalar, horizontal_xor_vector_zero,
      cross_mix_group, zero_slots, List.range_succ]
  · simp [little_box_group_scalar, mix_arx_scalar, horizontal_xor_vector_zero,
      cross_mix_group, zero_slots, List.range_succ]
  · simp [little_box_group_scalar, mix_arx_scalar, horizontal_xor_vector_zero,
      cross_mix_group, zero_slots, List.range_succ, rotr64_zero, rotl64_zero]
  · simp at hg

lemma group_avx2_canon (g : List Lane) (s rb : Nat) (hg : g.length ≤ 4) :
    little_box_group_avx2 g s rb =
      (List.range g.length).map (fun i => zero_slots (g.getD i laneZero)) := by
  rcases g with _ | ⟨l0, _ | ⟨l1, _ | ⟨l2, _ | ⟨l3, _ | ⟨l4, t⟩⟩⟩⟩⟩
  · rfl
  · simp [little_box_group_avx2, mix_arx_avx2, horizontal_xor256_zero,
      cross_mix_group, zero_slots, List.range_succ]
  · simp [little_box_group_avx2, mix_arx_avx2, horizontal_xor256_zero,
      cross_mix_group, zero_slots, List.range_succ]
  · simp [little_box_group_avx2, mix_arx_avx2, horizontal_xor256_zero,
      cross_mix_group, zero_slots, List.range_succ]
  · simp [little_box_group_avx2, mix_arx_avx2, horizontal_xor256_zero,
      cross_mix_group, zero_slots, List.range_succ, rotr64_zero, rotl64_zero]
  · simp at hg

lemma group_neon_canon (g : List Lane) (s rb : Nat) (hg : g.length ≤ 4) :
    little_box_group_neon g s rb =
      (List.range g.length).map (fun i => zero_slots (g.getD i laneZero)) := by
  rcases g with _ | ⟨l0, _ | ⟨l1, _ | ⟨l2, _ | ⟨l3, _ | ⟨l4, t⟩⟩⟩⟩⟩
  · rfl
  · simp [little_box_group_neon, mix_arx_neon, n256_horizontal_xor_zero,
      cross_mix_group, zero_slots, List.range_succ]
  · simp [little_box_group_neon, mix_arx_neon, n256_horizontal_xor_zero,
      cross_mix_group, zero_slots, List.range_succ]
  · simp [little_box_group_neon, mix_arx_neon, n256_horizontal_xor_zero,
      cross_mix_group, zero_slots, List.range_succ]
  · simp [little_box_group_neon, mix_arx_neon, n256_horizontal_xor_zero,
      cross_mix_group, zero_slots, List.range_succ, rotr64_zero, rotl64_zero]
  · simp at hg

lemma chunks4_length : ∀ (l : List Lane), ∀ g ∈ chunks4 l, g.length ≤ 4
  | [] => by simp [chunks4]
  | [a] => by simp [chunks4]
  | [a, b] => by simp [chunks4]
  | [a, b, c] => by simp [chunks4]
  | a :: b :: c :: d :: rest => by
      intro g hg
      simp only [chunks4, List.mem_cons] at hg
      rcases hg with h | h
      · simp [h]
      · exact chunks4_length rest g h

lemma little_box_execute_simd_avx2_eq (input : List Lane) (s rb : Nat) :
    little_box_execute_simd_avx2 input s rb = little_box_execute_scalar input s rb := by
  unfold little_box_execute_simd_avx2 little_box_execute_scalar
  apply congrArg List.flatten
  apply List.map_congr_left
  intro g hg
  rw [group_avx2_canon _ _ _ (chunks4_length input g hg)]
  rw [group_scalar_canon _ _ _ (chunks4_length input g hg)]

lemma little_box_execute_simd_neon_eq (input : List Lane) (s rb : Nat) :
    little_box_execute_simd_neon input s rb = little_box_execute_scalar input s rb := by
  unfold little_box_execute_simd_neon little_box_execute_scalar
  apply congrArg List.flatten
  apply List.map_congr_left
  intro g hg
  rw [group_neon_canon _ _ _ (chunks4_length input g hg)]
  rw [group_scalar_canon _ _ _ (chunks4_length input g hg)]

lemma little_box_execute_scalar_w9 (input : List Lane) (s rb : Nat) :
    ∀ l ∈ little_box_execute_scalar input s rb, l.w9 = 0 := by
  intro l hl
  unfold little_box_execute_scalar at hl
  simp only [List.mem_flatten, List.mem_map] at hl
  obtain ⟨gl, ⟨g, hg, rfl⟩, hmem⟩ := hl
  rw [group_scalar_canon _ _ _ (chunks4_length input g hg)] at hmem
  simp only [List.mem_map] at hmem
  obtain ⟨i, _, rfl⟩ := hmem
  rfl

lemma little_box_execute_simd_avx2_w9 (input : List Lane) (s rb : Nat) :
    ∀ l ∈ little_box_execute_simd_avx2 input s rb, l.w9 = 0 := by
  intro l hl
  rw [little_box_execute_simd_avx2_eq] at hl
  exact little_box_execute_scalar_w9 input s rb l hl

lemma little_box_execute_simd_neon_w9 (input : List Lane) (s rb : Nat) :
    ∀ l ∈ little_box_execute_simd_neon input s rb, l.w9 = 0 := by
  intro l hl
  rw [little_box_execute_simd_neon_eq] at hl
  exact little_box_execute_scalar_w9 input s rb l hl

lemma big_box_execute_avx2_eq (c : Ctx) (i rb : Nat) :
    big_box_execute_avx2 c i rb = big_box_execute c i rb := by
  unfold big_box_execute_avx2 big_box_execute
  simp only [little_box_execute_simd_avx2_eq]

lemma big_box_execute_neon_eq (c : Ctx) (i rb : Nat) :
    big_box_execute_neon c i rb = big_box_execute c i rb := by
  unfold big_box_execute_neon big_box_execute
  simp only [little_box_execute_simd_neon_eq]

lemma xzalgochain_final_avx2_eq (c : Ctx) :
    xzalgochain_final_avx2 c = xzalgochain_final c := by
  unfold xzalgochain_final_avx2 xzalgochain_final
  simp only [big_box_execute_avx2_eq]

lemma xzalgochain_final_neon_eq (c : Ctx) :
    xzalgochain_final_neon c = xzalgochain_final c := by
  unfold xzalgochain_final_neon xzalgochain_final
  simp only [big_box_execute_neon_eq]

/-- Claim C1: back-end independence.  For every input, the streaming digest
computed with the AVX2 (resp. NEON) back-end driving the BIG-box stages
equals the digest computed with the scalar back-end, and the three LITTLE-box
executors are extensionally equal on every lane batch and every salt / round
base — so forcing the scalar back-end cannot change any digest.  (All three
executors annihilate their stored slots: `mix_lanes` applied twice is
constantly zero, which also swallows the broken AVX2 `mullo64` emulation.) -/
theorem claim_c1_backend_independence :
    (∀ m : List Nat, streaming_digest_avx2 m = streaming_digest m) ∧
    (∀ m : List Nat, streaming_digest_neon m = streaming_digest m) ∧
    (∀ (input : List Lane) (s rb : Nat),
      little_box_execute_simd_avx2 input s rb = little_box_execute_scalar input s rb) ∧
    (∀ (input : List Lane) (s rb : Nat),
      little_box_execute_simd_neon input s rb = little_box_execute_scalar input s rb) := by
  refine ⟨fun m => ?_, fun m => ?_, little_box_execute_simd_avx2_eq,
    little_box_execute_simd_neon_eq⟩
  · unfold streaming_digest_avx2 streaming_digest
    rw [xzalgochain_final_avx2_eq]
  · unfold streaming_digest_neon streaming_digest
    rw [xzalgochain_final_neon_eq]

/-- Claim C7: the horizontal reductions of all three back-ends are constantly
zero, and consequently word 9 of every lane produced by any LITTLE-box
execution is zero, in every back-end. -/
theorem claim_c7_horizontal_xor_zero :
    (∀ v : Vec4, horizontal_xor_vector v = 0) ∧
    (∀ v : Vec4, horizontal_xor256 v = 0) ∧
    (∀ v : Vec4, n256_horizontal_xor v = 0) ∧
    (∀ (input : List Lane) (s rb : Nat),
      ∀ l ∈ little_box_execute_scalar input s rb, l.w9 = 0) ∧
    (∀ (input : List Lane) (s rb : Nat),
      ∀ l ∈ little_box_execute_simd_avx2 input s rb, l.w9 = 0) ∧
    (∀ (input : List Lane) (s rb : Nat),
      ∀ l ∈ little_box_execute_simd_neon input s rb, l.w9 = 0) :=
  ⟨horizontal_xor_vector_zero, horizontal_xor256_zero, n256_horizontal_xor_zero,
   little_box_execute_scalar_w9, little_box_execute_simd_avx2_w9,
   little_box_execute_simd_neon_w9⟩

/-- Witness for C7: a concrete LITTLE-box execution whose first output lane
has word 9 equal to zero. -/
theorem claim_c7_witness :
    ((little_box_execute_scalar [⟨1, 2, 3, 4, 5, 6, 7, 8, 9, 10⟩] 3 5).getD 0 laneZero).w9 = 0 :=
  claim_c7_horizontal_xor_zero.2.2.2.1 [⟨1, 2, 3, 4, 5, 6, 7, 8, 9, 10⟩] 3 5 _ (by decide)

lemma process_blocks_aux_fuel :
    ∀ (f1 f2 : Nat) (h : H5) (d : List Nat), d.length ≤ f1 → d.length ≤ f2 →
      process_blocks_aux f1 h d = process_blocks_aux f2 h d := by
  intro f1
  induction f1 with
  | zero =>
    intro f2 h d h1 h2
    have hd : d.length = 0 := Nat.le_zero.mp h1
    cases f2 with
    | zero => rfl
    | succ n =>
      show process_blocks_aux 0 h d = process_blocks_aux (n + 1) h d
      unfold process_blocks_aux
      rw [if_neg (by omega)]
  | succ n ih =>
    intro f2 h d h1 h2
    cases f2 with
    | zero =>
      have hd : d.length = 0 := Nat.le_zero.mp h2
      show process_blocks_aux (n + 1) h d = process_blocks_aux 0 h d
      unfold process_blocks_aux
      rw [if_neg (by omega)]
    | succ m =>
      show process_blocks_aux (n + 1) h d = process_blocks_aux (m + 1) h d
      unfold process_blocks_aux
      by_cases h128 : 128 ≤ d.length
      · rw [if_pos h128, if_pos h128]
        apply ih
        · simpa using (by omega : d.length - 128 ≤ n)
        · simpa using (by omega : d.length - 128 ≤ m)
      · rw [if_neg h128, if_neg h128]

lemma process_blocks_small (h : H5) (d : List Nat) (hd : d.length < 128) :
    process_blocks h d = (h, d) := by
  unfold process_blocks
  cases hn : d.length with
  | zero => rfl
  | succ n =>
    show process_blocks_aux (n + 1) h d = (h, d)
    unfold process_blocks_aux
    rw [if_neg (by omega)]

lemma process_blocks_step (h : H5) (d : List Nat) (hd : 128 ≤ d.length) :
    process_blocks h d =
      process_blocks (process_block h (block_words (d.take 128))) (d.drop 128) := by
  unfold process_blocks
  cases hn : d.length with
  | zero => omega
  | succ n =>
    simp only [process_blocks_aux]
    rw [if_pos hd]
    apply process_blocks_aux_fuel
    · simp; omega
    · simp

lemma process_blocks_rest_lt (h : H5) (d : List Nat) :
    (process_blocks h d).2.length < 128 := by
  suffices H : ∀ n (h : H5) (d : List Nat), d.length ≤ n → (process_blocks h d).2.length < 128 by
    exact H d.length h d le_rfl
  intro n
  induction n with
  | zero =>
    intro h d hd
    rw [process_blocks_small h d (by omega)]
    simp
    omega
  | succ n ih =>
    intro h d hd
    by_cases h128 : 128 ≤ d.length
    · rw [process_blocks_step h d h128]
      exact ih _ _ (by simp; omega)
    · rw [process_blocks_small h d (by omega)]
      simp
      omega

lemma process_blocks_compose (h : H5) (a b : List Nat) :
    process_blocks h (a ++ b) =
      process_blocks (process_blocks h a).1 ((process_blocks h a).2 ++ b) := by
  suffices H : ∀ n (h : H5) (a : List Nat), a.length ≤ n →
      process_blocks h (a ++ b) =
        process_blocks (process_blocks h a).1 ((process_blocks h a).2 ++ b) by
    exact H a.length h a le_rfl
  intro n
  induction n with
  | zero =>
    intro h a ha
    rw [process_blocks_small h a (by omega)]
  | succ n ih =>
    intro h a ha
    by_cases h128 : 128 ≤ a.length
    · have hab : 128 ≤ (a ++ b).length := by simp; omega
      rw [process_blocks_step _ _ hab, process_blocks_step h a h128]
      have ht : (a ++ b).take 128 = a.take 128 := by
        rw [List.take_append_eq_append_take]
        simp [Nat.sub_eq_zero_of_le h128]
      have hdr : (a ++ b).drop 128 = a.drop 128 ++ b := by
        rw [List.drop_append_eq_append_drop]
        simp [Nat.sub_eq_zero_of_le h128]
      rw [ht, hdr]
      exact ih _ _ (by simp; omega)
    · rw [process_blocks_small h a (by omega)]

lemma write_bytes_length (buf : List Nat) (pos : Nat) (data : List Nat)
    (h : pos + data.length ≤ buf.length) :
    (write_bytes buf pos data).length = buf.length := by
  simp [write_bytes]
  omega

lemma write_bytes_take (buf : List Nat) (pos : Nat) (data : List Nat)
    (h : pos ≤ buf.length) :
    (write_bytes buf pos data).take (pos + data.length) = buf.take pos ++ data := by
  unfold write_bytes
  apply List.take_left'
  simp
  omega

lemma update_empty (c : Ctx) : xzalgochain_update c [] = c := by
  simp [xzalgochain_update]

lemma xzalgochain_update_canon (c : Ctx) (d : List Nat)
    (hbuf : c.buffer.length = 128) (hbl : c.buffer_len < 128) (htb : c.total_bits < M) :
    (xzalgochain_update c d).h = (process_blocks c.h (c.buffer.take c.buffer_len ++ d)).1 ∧
    (xzalgochain_update c d).buffer_len =
      (process_blocks c.h (c.buffer.take c.buffer_len ++ d)).2.length ∧
    (xzalgochain_update c d).buffer.take (xzalgochain_update c d).buffer_len =
      (process_blocks c.h (c.buffer.take c.buffer_len ++ d)).2 ∧
    (xzalgochain_update c d).total_bits = (c.total_bits + d.length * 8) % M ∧
    (xzalgochain_update c d).buffer.length = 128 ∧
    (xzalgochain_update c d).little_box_state = c.little_box_state ∧
    (xzalgochain_update c d).big_box_state = c.big_box_state := by
  have htk : (c.buffer.take c.buffer_len).length = c.buffer_len := by simp; omega
  by_cases hd : d.isEmpty
  · have hd' : d = [] := List.isEmpty_iff.mp hd
    subst hd'
    rw [update_empty]
    rw [List.append_nil, process_blocks_small _ _ (by omega)]
    refine ⟨rfl, by simpa using htk.symm, rfl, ?_, hbuf, rfl, rfl⟩
    simp [Nat.mod_eq_of_lt htb]
  · unfold xzalgochain_update
    rw [if_neg hd]
    by_cases h0 : 0 < c.buffer_len
    · rw [if_pos h0]
      by_cases hfull : c.buffer_len + min d.length (128 - c.buffer_len) = 128
      · -- the buffer tops up to a full block
        rw [if_pos hfull]
        have hcopy : min d.length (128 - c.buffer_len) = 128 - c.buffer_len := by omega
        have hdlen : 128 - c.buffer_len ≤ d.length := by omega
        rw [hcopy]
        have hbuf1 : write_bytes c.buffer c.buffer_len (d.take (128 - c.buffer_len)) =
            (c.buffer.take c.buffer_len ++ d).take 128 := by
          unfold write_bytes
          rw [List.take_append_eq_append_take, List.take_take, htk]
          have h1 : min 128 c.buffer_len = c.buffer_len := by omega
          have h2 : (d.take (128 - c.buffer_len)).length = 128 - c.buffer_len := by
            simp; omega
          rw [h1, h2]
          have h4 : c.buffer.drop (c.buffer_len + (128 - c.buffer_len)) = [] :=
            List.drop_eq_nil_of_le (by omega)
          rw [h4, List.append_nil]
        have hbuf1len : (write_bytes c.buffer c.buffer_len (d.take (128 - c.buffer_len))).length
            = 128 := by
          rw [write_bytes_length _ _ _ (by rw [List.length_take]; omega), hbuf]
        have hdrop : d.drop (128 - c.buffer_len) = (c.buffer.take c.buffer_len ++ d).drop 128 := by
          rw [List.drop_append_eq_append_drop, htk]
          have h5 : (c.buffer.take c.buffer_len).drop 128 = [] :=
            List.drop_eq_nil_of_le (by rw [htk]; omega)
          rw [h5, List.nil_append]
        have hslen : 128 ≤ (c.buffer.take c.buffer_len ++ d).length := by
          simp [htk]; omega
        have hpr : process_blocks
              (process_block c.h (block_words
                (write_bytes c.buffer c.buffer_len (d.take (128 - c.buffer_len)))))
              (d.drop (128 - c.buffer_len)) =
            process_blocks c.h (c.buffer.take c.buffer_len ++ d) := by
          rw [hbuf1, hdrop]
          exact (process_blocks_step c.h _ hslen).symm
        simp only [hpr]
        by_cases hrest : (process_blocks c.h (c.buffer.take c.buffer_len ++ d)).2.isEmpty
        · rw [if_pos hrest]
          have hr' : (process_blocks c.h (c.buffer.take c.buffer_len ++ d)).2 = [] :=
            List.isEmpty_iff.mp hrest
          exact ⟨rfl, by simp [hr'], by simp [hr'], rfl, hbuf1len, rfl, rfl⟩
        · rw [if_neg hrest]
          have hr : (process_blocks c.h (c.buffer.take c.buffer_len ++ d)).2.length < 128 :=
            process_blocks_rest_lt c.h _
          refine ⟨rfl, rfl, ?_, rfl, ?_, rfl, rfl⟩
          · show (write_bytes _ 0 _).take _ = _
            have hw := write_bytes_take
              (write_bytes c.buffer c.buffer_len (d.take (128 - c.buffer_len))) 0
              (process_blocks c.h (c.buffer.take c.buffer_len ++ d)).2 (by omega)
            simpa using hw
          · show (write_bytes _ 0 _).length = 128
            rw [write_bytes_length _ _ _ (by rw [hbuf1len]; omega), hbuf1len]
      · -- the buffer stays below 128 bytes: everything is buffered
        rw [if_neg hfull]
        have hcopy : min d.length (128 - c.buffer_len) = d.length := by omega
        have hsmall : c.buffer_len + d.length < 128 := by omega
        rw [hcopy, List.take_length]
        rw [process_blocks_small _ _ (by simp [htk]; omega)]
        refine ⟨rfl, by simp [htk], ?_, rfl, ?_, rfl, rfl⟩
        · exact write_bytes_take c.buffer c.buffer_len d (by omega)
        · show (write_bytes _ _ _).length = 128
          rw [write_bytes_length _ _ _ (by omega), hbuf]
    · have hbl0 : c.buffer_len = 0 := by omega
      rw [if_neg h0, hbl0, List.take_zero, List.nil_append]
      by_cases hrest : (process_blocks c.h d).2.isEmpty
      · rw [if_pos hrest]
        have hr' : (process_blocks c.h d).2 = [] := List.isEmpty_iff.mp hrest
        exact ⟨rfl, by simp [hr'], by simp [hr'], rfl, hbuf, rfl, rfl⟩
      · rw [if_neg hrest]
        have hr : (process_blocks c.h d).2.length < 128 := process_blocks_rest_lt c.h d
        refine ⟨rfl, rfl, ?_, rfl, ?_, rfl, rfl⟩
        · show (write_bytes c.buffer 0 (process_blocks c.h d).2).take _ = _
          have hw := write_bytes_take c.buffer 0 (process_blocks c.h d).2 (by omega)
          simpa using hw
        · show (write_bytes c.buffer 0 (process_blocks c.h d).2).length = 128
          rw [write_bytes_length c.buffer 0 (process_blocks c.h d).2 (by omega), hbuf]

lemma stream_rep_init : stream_rep xzalgochain_init [] := by
  rw [stream_rep, process_blocks_small _ _ (by simp)]
  refine ⟨rfl, rfl, rfl, rfl, rfl, rfl, rfl⟩

lemma stream_rep_update (c : Ctx) (s d : List Nat) (hc : stream_rep c s) :
    stream_rep (xzalgochain_update c d) (s ++ d) := by
  obtain ⟨hh, hbl, hvb, htb, hbuf, hlit, hbig⟩ := hc
  have hrest : (process_blocks xzalgochain_init.h s).2.length < 128 :=
    process_blocks_rest_lt _ _
  have hbl' : c.buffer_len < 128 := by omega
  have htb' : c.total_bits < M := by rw [htb]; exact Nat.mod_lt _ (by norm_num [M])
  obtain ⟨u1, u2, u3, u4, u5, u6, u7⟩ := xzalgochain_update_canon c d hbuf hbl' htb'
  have hcomp : process_blocks c.h (c.buffer.take c.buffer_len ++ d) =
      process_blocks xzalgochain_init.h (s ++ d) := by
    rw [hh, hvb]
    exact (process_blocks_compose xzalgochain_init.h s d).symm
  rw [hcomp] at u1 u2 u3
  refine ⟨u1, u2, u3, ?_, u5, by rw [u6, hlit], by rw [u7, hbig]⟩
  rw [u4, htb]
  simp only [List.length_append, M]
  omega

lemma stream_rep_foldl (chunks : List (List Nat)) :
    ∀ (c : Ctx) (s : List Nat), stream_rep c s →
      stream_rep (chunks.foldl xzalgochain_update c) (s ++ chunks.flatten) := by
  induction chunks with
  | nil => intro c s hc; simpa using hc
  | cons d rest ih =>
    intro c s hc
    have step := stream_rep_update c s d hc
    have := ih (xzalgochain_update c d) (s ++ d) step
    simpa [List.append_assoc] using this

/-- The padded final block in closed form: the valid data, one `0x80` byte,
then zeros. -/
lemma pad_final_eq (c : Ctx) (hbuf : c.buffer.length = 128) (hbl : c.buffer_len < 128) :
    pad_final c = c.buffer.take c.buffer_len ++ 0x80 :: List.replicate (127 - c.buffer_len) 0 := by
  have hw1len : (write_bytes c.buffer c.buffer_len [0x80]).length = 128 := by
    rw [write_bytes_length _ _ _ (by simp; omega), hbuf]
  have hw1take : (write_bytes c.buffer c.buffer_len [0x80]).take (c.buffer_len + 1) =
      c.buffer.take c.buffer_len ++ [0x80] := by
    have := write_bytes_take c.buffer c.buffer_len [0x80] (by omega)
    simpa using this
  have hdr : (write_bytes c.buffer c.buffer_len [0x80]).drop
      (c.buffer_len + 1 + (List.replicate (128 - (c.buffer_len + 1)) (0 : Nat)).length) = [] := by
    apply List.drop_eq_nil_of_le
    rw [hw1len]
    simp only [List.length_replicate]
    omega
  show (write_bytes c.buffer c.buffer_len [0x80]).take (c.buffer_len + 1) ++
      List.replicate (128 - (c.buffer_len + 1)) 0 ++
      (write_bytes c.buffer c.buffer_len [0x80]).drop
        (c.buffer_len + 1 + (List.replicate (128 - (c.buffer_len + 1)) (0 : Nat)).length) = _
  rw [hw1take, hdr, List.append_nil]
  rw [show 128 - (c.buffer_len + 1) = 127 - c.buffer_len from by omega]
  simp

lemma xzalgochain_final_congr (c1 c2 : Ctx)
    (hh : c1.h = c2.h) (hbl : c1.buffer_len = c2.buffer_len)
    (hvb : c1.buffer.take c1.buffer_len = c2.buffer.take c2.buffer_len)
    (hlit : c1.little_box_state = c2.little_box_state)
    (hbig : c1.big_box_state = c2.big_box_state)
    (htot : c1.total_bits = c2.total_bits)
    (hbuf1 : c1.buffer.length = 128) (hbuf2 : c2.buffer.length = 128)
    (hbl1 : c1.buffer_len < 128) (hbl2 : c2.buffer_len < 128) :
    xzalgochain_final c1 = xzalgochain_final c2 := by
  have hpad : pad_final c1 = pad_final c2 := by
    rw [pad_final_eq c1 hbuf1 hbl1, pad_final_eq c2 hbuf2 hbl2, hvb, hbl]
  unfold xzalgochain_final
  rw [hpad, hh, hbl, hlit, hbig, htot]

lemma serialize_h_length (h : H5) : (serialize_h h).length = 40 := rfl

/-- Claim C2: chunk-invariance of streaming.  Feeding the chunks one
`update` at a time produces the same digest as one `update` with the whole
message (the flattened chunk list); chunks may be empty. -/
theorem claim_c2_chunk_invariance (chunks : List (List Nat)) :
    (xzalgochain_final (chunks.foldl xzalgochain_update xzalgochain_init)).1 =
    (xzalgochain_final (xzalgochain_update xzalgochain_init chunks.flatten)).1 := by
  have h1 : stream_rep (chunks.foldl xzalgochain_update xzalgochain_init) chunks.flatten := by
    simpa using stream_rep_foldl chunks xzalgochain_init [] stream_rep_init
  have h2 : stream_rep (xzalgochain_update xzalgochain_init chunks.flatten) chunks.flatten := by
    simpa using stream_rep_update xzalgochain_init [] chunks.flatten stream_rep_init
  obtain ⟨a1, a2, a3, a4, a5, a6, a7⟩ := h1
  obtain ⟨b1, b2, b3, b4, b5, b6, b7⟩ := h2
  rw [xzalgochain_final_congr _ _ (by rw [a1, b1]) (by rw [a2, b2]) (by rw [a3, b3])
    (by rw [a6, b6]) (by rw [a7, b7]) (by rw [a4, b4]) a5 b5
    (by rw [a2]; exact process_blocks_rest_lt _ _)
    (by rw [b2]; exact process_blocks_rest_lt _ _)]

/-- Claim C8: streaming-context invariant.  After any finite sequence of
`update` calls from `init`, the buffer-length counter is strictly below 128
and the total-bit counter is 8 times the total number of bytes passed, as
64-bit wrapping arithmetic. -/
theorem claim_c8_streaming_invariant (chunks : List (List Nat)) :
    (chunks.foldl xzalgochain_update xzalgochain_init).buffer_len < 128 ∧
    (chunks.foldl xzalgochain_update xzalgochain_init).total_bits =
      (8 * (chunks.map List.length).sum) % M := by
  have h1 : stream_rep (chunks.foldl xzalgochain_update xzalgochain_init) chunks.flatten := by
    simpa using stream_rep_foldl chunks xzalgochain_init [] stream_rep_init
  obtain ⟨a1, a2, a3, a4, a5, a6, a7⟩ := h1
  refine ⟨?_, ?_⟩
  · rw [a2]; exact process_blocks_rest_lt _ _
  · rw [a4, List.length_flatten, Nat.mul_comm]

/-- Claim C9: totality.  Every sequence of updates yields a well-defined
40-byte digest; the padding write `buffer[buffer_len] = 0x80` stays inside
the 128-byte buffer and the padded final block is exactly 128 bytes. -/
theorem claim_c9_totality (chunks : List (List Nat)) :
    ((xzalgochain_final (chunks.foldl xzalgochain_update xzalgochain_init)).1).length = 40 ∧
    (chunks.foldl xzalgochain_update xzalgochain_init).buffer_len + 1 ≤ 128 ∧
    (pad_final (chunks.foldl xzalgochain_update xzalgochain_init)).length = 128 ∧
    (∀ x n : Nat, rotl64 x n = rotl64 x (n % 64) ∧ rotr64 x n = rotr64 x (n % 64)) := by
  have h1 : stream_rep (chunks.foldl xzalgochain_update xzalgochain_init) chunks.flatten := by
    simpa using stream_rep_foldl chunks xzalgochain_init [] stream_rep_init
  obtain ⟨a1, a2, a3, a4, a5, a6, a7⟩ := h1
  have hbl : (chunks.foldl xzalgochain_update xzalgochain_init).buffer_len < 128 := by
    rw [a2]; exact process_blocks_rest_lt _ _
  refine ⟨serialize_h_length _, by omega, ?_, ?_⟩
  · rw [pad_final_eq _ a5 hbl]
    simp
    omega
  · intro x n
    have hm : n % 64 % 64 = n % 64 := by omega
    exact ⟨by simp only [rotl64, hm], by simp only [rotr64, hm]⟩

/-- Claim C4 (amended): `xzalgochain_final` does NOT wipe the context.  On
return, the buffer-length counter equals its previous value plus one, the
total-bit counter is unchanged, and the buffer holds the padded final block
(valid data, then `0x80`, then zeros); wiping is the separate
`xzalgochain_ctx_wipe` operation. -/
theorem claim_c4_final_does_not_wipe (c : Ctx)
    (hbuf : c.buffer.length = 128) (hbl : c.buffer_len < 128) :
    (xzalgochain_final c).2.buffer_len = c.buffer_len + 1 ∧
    (xzalgochain_final c).2.total_bits = c.total_bits ∧
    (xzalgochain_final c).2.buffer =
      c.buffer.take c.buffer_len ++ 0x80 :: List.replicate (127 - c.buffer_len) 0 :=
  ⟨rfl, rfl, pad_final_eq c hbuf hbl⟩

/-- Counterexample for claim C4 as stated: after `init` then `final`, the
buffer-length counter is 1 (not 0) and the first buffer byte is the padding
byte `0x80` (not 0) — the context is not wiped. -/
theorem claim_c4_counterexample :
    (xzalgochain_final xzalgochain_init).2.buffer_len = 1 ∧
    (xzalgochain_final xzalgochain_init).2.buffer.getD 0 0 = 0x80 ∧
    ¬ ((xzalgochain_final xzalgochain_init).2.buffer_len = 0 ∧
       (xzalgochain_final xzalgochain_init).2.buffer.getD 0 0 = 0) := by
  refine ⟨rfl, by decide, ?_⟩
  intro hcl
  exact absurd hcl.1 (by decide)

/-- Witness for C4 (amended): the hypotheses hold for the freshly
initialized context, where the final buffer is `0x80` followed by zeros. -/
theorem claim_c4_witness :
    (xzalgochain_final xzalgochain_init).2.buffer_len = 0 + 1 ∧
    (xzalgochain_final xzalgochain_init).2.total_bits = 0 ∧
    (xzalgochain_final xzalgochain_init).2.buffer =
      (List.replicate 128 0).take 0 ++ 0x80 :: List.replicate 127 0 := by
  have := claim_c4_final_does_not_wipe xzalgochain_init (by decide) (by decide)
  simpa using this

lemma getD_set_ne {α : Type} (l : List α) (i j : Nat) (hij : j ≠ i) (a d : α) :
    (l.set i a).getD j d = l.getD j d := by
  simp [List.getD_eq_getElem?_getD, List.getElem?_set_ne (Ne.symm hij)]

/-- Claim C10: `big_box_execute` leaves the hash state, buffer, buffer-length
counter and total-bit counter unchanged, and touches no BIG-box row other
than `box_index`; the salt derived from the state is therefore the same
before and after, and the five-stage loop of `final` leaves `h` unchanged,
so every stage derives its salt from the same hash state. -/
theorem claim_c10_big_box_frame (c : Ctx) (i rb : Nat) :
    (big_box_execute c i rb).h = c.h ∧
    (big_box_execute c i rb).buffer = c.buffer ∧
    (big_box_execute c i rb).buffer_len = c.buffer_len ∧
    (big_box_execute c i rb).total_bits = c.total_bits ∧
    (∀ j, j ≠ i → (big_box_execute c i rb).big_box_state.getD j [] =
      c.big_box_state.getD j []) ∧
    generate_salt (big_box_execute c i rb).h = generate_salt c.h ∧
    ((List.range 5).foldl (fun cc bb => big_box_execute cc bb (bb * 2000)) c).h = c.h := by
  refine ⟨rfl, rfl, rfl, rfl, ?_, rfl, rfl⟩
  intro j hj
  exact getD_set_ne _ _ _ hj _ _

/-- Witness for C10 at a concrete context, box index and round base. -/
theorem claim_c10_witness :
    (big_box_execute xzalgochain_init 0 0).h = xzalgochain_init.h ∧
    (big_box_execute xzalgochain_init 0 0).big_box_state.getD 3 [] =
      xzalgochain_init.big_box_state.getD 3 [] :=
  ⟨(claim_c10_big_box_frame xzalgochain_init 0 0).1,
   (claim_c10_big_box_frame xzalgochain_init 0 0).2.2.2.2.1 3 (by decide)⟩

lemma M_eq : M = 2 ^ 64 := by norm_num [M]

lemma shiftRight_le_self (a k : Nat) : a >>> k ≤ a := by
  rw [Nat.shiftRight_eq_div_pow]
  exact Nat.div_le_self a (2 ^ k)

lemma xor_lt_M (a b : Nat) (ha : a < M) (hb : b < M) : a ^^^ b < M := by
  rw [M_eq] at *
  exact Nat.xor_lt_two_pow ha hb

lemma mod_M_lt (a : Nat) : a % M < M := Nat.mod_lt _ (by norm_num [M])

lemma words_of_output_lt (out : List Nat) : h5_lt_M (words_of_output out) :=
  ⟨mod_M_lt _, mod_M_lt _, mod_M_lt _, mod_M_lt _, mod_M_lt _⟩

lemma single_shot_pass_lt (w : H5) (hw : h5_lt_M w) : h5_lt_M (single_shot_pass w) := by
  obtain ⟨h0, h1, h2, h3, h4⟩ := hw
  have q0 : (single_shot_pass w).h0 < M :=
    xor_lt_M _ _ (mod_M_lt _) (lt_of_le_of_lt (shiftRight_le_self _ _) h2)
  have q1 : (single_shot_pass w).h1 < M :=
    xor_lt_M _ _ (mod_M_lt _) (lt_of_le_of_lt (shiftRight_le_self _ _) h3)
  exact ⟨q0, q1,
    xor_lt_M _ _ (mod_M_lt _) (lt_of_le_of_lt (shiftRight_le_self _ _) h4),
    xor_lt_M _ _ (mod_M_lt _) (lt_of_le_of_lt (shiftRight_le_self _ _) q0),
    xor_lt_M _ _ (mod_M_lt _) (lt_of_le_of_lt (shiftRight_le_self _ _) q1)⟩

lemma bytes_roundtrip (v : Nat) (hv : v < M) : bytes_to_u64 (u64_to_bytes v) = v := by
  unfold bytes_to_u64 u64_to_bytes
  simp only [List.getD_cons_zero, List.getD_cons_succ, Nat.shiftLeft_eq,
    Nat.shiftRight_eq_div_pow, M] at *
  norm_num
  omega

lemma words_roundtrip (w : H5) (hw : h5_lt_M w) : words_of_output (serialize_h w) = w := by
  obtain ⟨h0, h1, h2, h3, h4⟩ := hw
  have e : words_of_output (serialize_h w) =
      ⟨bytes_to_u64 (u64_to_bytes w.h0), bytes_to_u64 (u64_to_bytes w.h1),
       bytes_to_u64 (u64_to_bytes w.h2), bytes_to_u64 (u64_to_bytes w.h3),
       bytes_to_u64 (u64_to_bytes w.h4)⟩ := rfl
  rw [e, bytes_roundtrip _ h0, bytes_roundtrip _ h1, bytes_roundtrip _ h2,
    bytes_roundtrip _ h3, bytes_roundtrip _ h4]

/-- Claim C5: the single-shot wrapper is exactly the post-serialization
mixing applied to the streaming digest (also with the intermediate
serialization collapsed away), and the two digests really differ: on the
empty input the single-shot digest is not the streaming digest. -/
theorem claim_c5_single_shot_vs_streaming :
    (∀ m : List Nat, xzalgochain m = single_shot_post_mix (streaming_digest m)) ∧
    (∀ d : List Nat, single_shot_post_mix d =
      serialize_h (single_shot_mix_extra (single_shot_mix3 (words_of_output d)))) ∧
    xzalgochain [] ≠ streaming_digest [] := by
  refine ⟨fun m => rfl, fun d => ?_, by decide⟩
  unfold single_shot_post_mix
  rw [words_roundtrip]
  exact single_shot_pass_lt _ (single_shot_pass_lt _
    (single_shot_pass_lt _ (words_of_output_lt d)))

/-- Claim C6: `process_block` implements exactly the per-word sequence the
specification prescribes (ascending `i`, in place, neighbour words read from
the partially-updated state, wrapping 64-bit arithmetic). -/
theorem claim_c6_process_block_exact :
    ∀ (h : H5) (block : List Nat), process_block h block = process_block_spec h block :=
  fun _ _ => rfl

/-- Counterexample for claim C3 as stated: two blocks that agree on words 0
through 10 but differ in word 11 produce different states, so words
B[11..15] are not all ignored — `process_block` reads `block[i+10]` for
`i = 0..4`, i.e. words 10..14. -/
theorem claim_c3_counterexample :
    (∀ i : Nat, i ≤ 10 →
      (List.replicate 16 (0 : Nat)).getD i 0 =
        ((List.replicate 16 (0 : Nat)).set 11 1).getD i 0) ∧
    process_block xzalgochain_init.h (List.replicate 16 0) ≠
      process_block xzalgochain_init.h ((List.replicate 16 0).set 11 1) := by
  constructor
  · decide
  · decide

/-- Claim C3 (amended): the block compressor uses only block words B[0..14];
any two blocks agreeing on words 0 through 14 produce the same updated state,
i.e. only word B[15] has no influence. -/
theorem claim_c3_words_used (h : H5) (b1 b2 : List Nat)
    (hagree : ∀ i : Nat, i < 15 → b1.getD i 0 = b2.getD i 0) :
    process_block h b1 = process_block h b2 := by
  simp only [process_block,
    hagree 0 (by omega), hagree 1 (by omega), hagree 2 (by omega), hagree 3 (by omega),
    hagree 4 (by omega), hagree 5 (by omega), hagree 6 (by omega), hagree 7 (by omega),
    hagree 8 (by omega), hagree 9 (by omega), hagree 10 (by omega), hagree 11 (by omega),
    hagree 12 (by omega), hagree 13 (by omega), hagree 14 (by omega)]

/-- Witness for C3 (amended): two concrete blocks differing only in word 15
hash to the same state. -/
theorem claim_c3_witness :
    process_block xzalgochain_init.h (List.replicate 16 0) =
      process_block xzalgochain_init.h (List.replicate 15 0 ++ [7]) :=
  claim_c3_words_used xzalgochain_init.h _ _ (by decide)
